import Mathlib

/-!
Verification development for the pysb-pkpd macro library.

The Python package builds PK/PD models by emitting "components"
(parameters, compartments, observables, expressions, rules, initial
conditions) into a model under construction.  We embed the data model and
the constructors of src/pysb/pkpd/macros.py and src/pysb/pkpd/standard.py
shallowly: numeric values are rationals, sympy expressions are a symbolic
AST, and the external framework's self-registration with duplicate-name
errors is explicit state passing over a model value.
-/

namespace PKPD

/-- Named numeric parameter, as pysb.Parameter (name plus value). -/
structure Parameter where
  name : String
  value : ℚ
deriving DecidableEq

/-- Monomer: a molecular species kind, as pysb.Monomer (our drugs have no sites). -/
structure Monomer where
  name : String
deriving DecidableEq

/-- Compartment with its size parameter, as pysb.Compartment.
The macros always pass a Parameter as size (numbers are coerced before
construction), so size is a Parameter here. -/
structure Compartment where
  name : String
  size : Parameter
deriving DecidableEq

/-- A concrete compartment-qualified complex pattern: species ** compartment. -/
structure CPattern where
  mono : Monomer
  comp : Compartment
deriving DecidableEq

/-- Species argument accepted by the macros: a bare Monomer, or a
monomer pattern (possibly already carrying a compartment context). -/
inductive Species where
  | mono (m : Monomer)
  | pat (m : Monomer) (comp : Option Compartment)
deriving DecidableEq

/-- The base entity name used in synthesized identifiers
(species.name or species.monomer.name in the source). -/
def Species.baseName : Species → String
  | .mono m => m.name
  | .pat m _ => m.name

/-- The underlying monomer of a species argument. -/
def Species.monomerOf : Species → Monomer
  | .mono m => m
  | .pat m _ => m

/-- Embeds _check_for_monomer: qualify the species with the compartment
(a Monomer becomes species() ** compartment; a pattern has its
compartment set), yielding a concrete complex pattern. -/
def check_for_monomer (s : Species) (c : Compartment) : CPattern :=
  ⟨s.monomerOf, c⟩

/-- Observable over a concrete pattern, as pysb.Observable. -/
structure Observable where
  name : String
  pattern : CPattern
deriving DecidableEq

/-- Symbolic sympy expression tree as used by the macros.  Expression
components are referenced by name (sympy symbols), parameters and
observables by the component itself. -/
inductive SymExpr where
  | lit (q : ℚ)
  | par (p : Parameter)
  | obs (o : Observable)
  | exprR (name : String)
  | add (a b : SymExpr)
  | mul (a b : SymExpr)
  | div (a b : SymExpr)
  | pow (a b : SymExpr)
  | log (a : SymExpr)
  | logB (a base : SymExpr)
  | stepGt (val x thr : SymExpr)
deriving DecidableEq

/-- Named expression component, as pysb.Expression. -/
structure ExpressionC where
  name : String
  body : SymExpr
deriving DecidableEq

/-- Rate attached to a rule: a bare Parameter or an Expression. -/
inductive RateLaw where
  | par (p : Parameter)
  | expr (e : ExpressionC)
deriving DecidableEq

/-- Rule expression: reactant and product patterns (none encodes the
empty pattern) and reversibility. -/
structure RuleExpr where
  reactant : Option CPattern
  product : Option CPattern
  reversible : Bool
deriving DecidableEq

/-- Reaction rule component, as pysb.Rule: name, rule expression and the
rate laws (forward, and reverse when reversible). -/
structure RuleC where
  name : String
  re : RuleExpr
  rates : List RateLaw
deriving DecidableEq

/-- Initial condition, as pysb.Initial; the macros always bind an
Expression as the amount. -/
structure InitialC where
  pattern : CPattern
  amount : ExpressionC
deriving DecidableEq

/-- A model component. -/
inductive Component where
  | mono (m : Monomer)
  | par (p : Parameter)
  | comp (c : Compartment)
  | obs (o : Observable)
  | expr (e : ExpressionC)
  | rule (r : RuleC)
  | init (i : InitialC)
deriving DecidableEq

/-- The registered name of a component; initial conditions are unnamed. -/
def Component.nameOf : Component → Option String
  | .mono m => some m.name
  | .par p => some p.name
  | .comp c => some c.name
  | .obs o => some o.name
  | .expr e => some e.name
  | .rule r => some r.name
  | .init _ => none

/-- Errors surfaced by the framework and the template layer. -/
inductive PkError where
  | dupName (name : String)
  | dupInit
  | keyErr (key : String)
  | typeErr
  | valErr
deriving DecidableEq

/-- The model under construction: its components in creation order. -/
structure Model where
  components : List Component
deriving DecidableEq

/-- All registered component names of a model. -/
def Model.names (m : Model) : List String :=
  m.components.filterMap Component.nameOf

/-- Registered initial-condition patterns of a model. -/
def Model.initPatterns (m : Model) : List CPattern :=
  m.components.filterMap fun c => match c with
    | .init i => some i.pattern
    | _ => none

/-- Models the framework's self-registration: creating a component adds
it to the model, raising ComponentDuplicateNameError when the name is
taken (and a duplicate-initial error for a repeated initial pattern). -/
def addComponent (m : Model) (c : Component) : Except PkError Model :=
  match Component.nameOf c with
  | some nm =>
      if nm ∈ m.names then .error (.dupName nm)
      else .ok ⟨m.components ++ [c]⟩
  | none =>
      match c with
      | .init i =>
          if i.pattern ∈ m.initPatterns then .error .dupInit
          else .ok ⟨m.components ++ [c]⟩
      | _ => .ok ⟨m.components ++ [c]⟩

/-- Register a list of components in creation order, stopping at the
first error, as the framework does while a macro body runs. -/
def applyList (m : Model) : List Component → Except PkError Model
  | [] => .ok m
  | c :: rest => do
      let m' ← addComponent m c
      applyList m' rest

/-- The output of one macro call: the components it created in creation
order, and the ComponentSet it returns (a sublist, in return order). -/
structure MacroOut where
  created : List Component
  returned : List Component
deriving DecidableEq

/-- Run a macro call against a model: register everything it creates. -/
def applyOut (m : Model) (out : MacroOut) : Except PkError Model :=
  applyList m out.created

/-- A value-or-parameter argument: the caller passes a number or an
existing Parameter. -/
inductive VP where
  | num (q : ℚ)
  | par (p : Parameter)
deriving DecidableEq

/-- The Parameter actually used for a value-or-parameter argument: a
passed Parameter unchanged, or the freshly minted one for a number. -/
def vpUse (nm : String) : VP → Parameter
  | .num q => ⟨nm, q⟩
  | .par p => p

/-- The list of Parameters newly created for a value-or-parameter
argument (empty when a Parameter was passed). -/
def vpNew (nm : String) : VP → List Parameter
  | .num q => [⟨nm, q⟩]
  | .par _ => []

/-- Rate argument handed to the rule helper: number, Parameter or
Expression. -/
inductive RateArg where
  | num (q : ℚ)
  | par (p : Parameter)
  | expr (e : ExpressionC)
deriving DecidableEq

/-- View a value-or-parameter argument as a rate argument. -/
def VP.toRate : VP → RateArg
  | .num q => .num q
  | .par p => .par p

/-- Name template shared by the synthesized identifiers of the macros:
role text, base entity name, underscore, compartment name, suffix. -/
def mkNm (pre m c suf : String) : String :=
  pre ++ m ++ "_" ++ c ++ suf

/-- Models pysb.macros with one rate: builds the rule under the
given names; a numeric rate becomes a Parameter named after the rule and
is returned after the rule, exactly as the helper in the framework does. -/
def mkRule1 (ruleName paramName : String) (re : RuleExpr) (k : RateArg) : MacroOut :=
  match k with
  | .num q =>
      let p : Parameter := ⟨paramName, q⟩
      ⟨[.par p, .rule ⟨ruleName, re, [.par p]⟩],
       [.rule ⟨ruleName, re, [.par p]⟩, .par p]⟩
  | .par p =>
      ⟨[.rule ⟨ruleName, re, [.par p]⟩], [.rule ⟨ruleName, re, [.par p]⟩]⟩
  | .expr e =>
      ⟨[.rule ⟨ruleName, re, [.expr e]⟩], [.rule ⟨ruleName, re, [.expr e]⟩]⟩

/-- Models pysb.macros with a forward and a reverse rate (used by
distribute): both Parameters or both numbers, otherwise ValueError. -/
def mkRule2 (ruleName p1Name p2Name : String) (re : RuleExpr) (k1 k2 : RateArg) :
    Except PkError MacroOut :=
  match k1, k2 with
  | .num q1, .num q2 =>
      let p1 : Parameter := ⟨p1Name, q1⟩
      let p2 : Parameter := ⟨p2Name, q2⟩
      .ok ⟨[.par p1, .par p2, .rule ⟨ruleName, re, [.par p1, .par p2]⟩],
           [.rule ⟨ruleName, re, [.par p1, .par p2]⟩, .par p1, .par p2]⟩
  | .num _, _ => .error .valErr
  | _, .num _ => .error .valErr
  | r1, r2 =>
      let toLaw : RateArg → List RateLaw := fun r => match r with
        | .par p => [RateLaw.par p]
        | .expr e => [RateLaw.expr e]
        | .num _ => []
      .ok ⟨[.rule ⟨ruleName, re, toLaw r1 ++ toLaw r2⟩],
           [.rule ⟨ruleName, re, toLaw r1 ++ toLaw r2⟩]⟩

/-- View a parameter list as components. -/
def parsC (l : List Parameter) : List Component :=
  l.map Component.par

/-- Embeds drug_monomer: add a simple Monomer for the drug. -/
def drug_monomer (name : String) : MacroOut :=
  ⟨[.mono ⟨name⟩], [.mono ⟨name⟩]⟩

/-- Embeds one_compartment: one compartment whose size is reused when a
Parameter, else wrapped into a Parameter named after the compartment. -/
def one_compartment (c1_name : String) (c1_size : VP) : MacroOut :=
  let s1 := vpUse ("V_" ++ c1_name) c1_size
  let pc := vpNew ("V_" ++ c1_name) c1_size
  let C1 : Compartment := ⟨c1_name, s1⟩
  ⟨parsC pc ++ [.comp C1], [.comp C1] ++ parsC pc⟩

/-- Embeds two_compartments. -/
def two_compartments (c1_name : String) (c1_size : VP)
    (c2_name : String) (c2_size : VP) : MacroOut :=
  let s1 := vpUse ("V_" ++ c1_name) c1_size
  let s2 := vpUse ("V_" ++ c2_name) c2_size
  let pc := vpNew ("V_" ++ c1_name) c1_size ++ vpNew ("V_" ++ c2_name) c2_size
  let C1 : Compartment := ⟨c1_name, s1⟩
  let C2 : Compartment := ⟨c2_name, s2⟩
  ⟨parsC pc ++ [.comp C1, .comp C2], [.comp C1, .comp C2] ++ parsC pc⟩

/-- Embeds three_compartments. -/
def three_compartments (c1_name : String) (c1_size : VP)
    (c2_name : String) (c2_size : VP) (c3_name : String) (c3_size : VP) : MacroOut :=
  let s1 := vpUse ("V_" ++ c1_name) c1_size
  let s2 := vpUse ("V_" ++ c2_name) c2_size
  let s3 := vpUse ("V_" ++ c3_name) c3_size
  let pc := vpNew ("V_" ++ c1_name) c1_size ++ vpNew ("V_" ++ c2_name) c2_size
    ++ vpNew ("V_" ++ c3_name) c3_size
  let C1 : Compartment := ⟨c1_name, s1⟩
  let C2 : Compartment := ⟨c2_name, s2⟩
  let C3 : Compartment := ⟨c3_name, s3⟩
  ⟨parsC pc ++ [.comp C1, .comp C2, .comp C3],
   [.comp C1, .comp C2, .comp C3] ++ parsC pc⟩

/-- Embeds eliminate: linear elimination rule species ** compartment >> None
at rate kel. -/
def eliminate (species : Species) (compartment : Compartment) (kel : VP) : MacroOut :=
  let b := species.baseName
  let cn := compartment.name
  let sp := check_for_monomer species compartment
  mkRule1 (mkNm "eliminate_" b cn "") (mkNm "eliminate_" b cn "_k")
    ⟨some sp, none, false⟩ kel.toRate

/-- Embeds eliminate_mm: Michaelis-Menten elimination; the rule rate is
the Expression Vmax / (obs + Km) over a live Observable. -/
def eliminate_mm (species : Species) (compartment : Compartment) (vmax km : VP) : MacroOut :=
  let b := species.baseName
  let cn := compartment.name
  let sp := check_for_monomer species compartment
  let Vmax := vpUse (mkNm "Vmax_" b cn "") vmax
  let Km := vpUse (mkNm "Km_" b cn "") km
  let pc := vpNew (mkNm "Vmax_" b cn "") vmax ++ vpNew (mkNm "Km_" b cn "") km
  let obs_expr : Observable := ⟨mkNm "_obs_expr_" b cn "", sp⟩
  let k_expr : ExpressionC :=
    ⟨mkNm "k_expr_" b cn "", .div (.par Vmax) (.add (.obs obs_expr) (.par Km))⟩
  let mr := mkRule1 (mkNm "eliminate_mm_" b cn "") (mkNm "eliminate_mm_" b cn "_k")
    ⟨some sp, none, false⟩ (.expr k_expr)
  ⟨parsC pc ++ [.obs obs_expr, .expr k_expr] ++ mr.created,
   mr.returned ++ parsC pc ++ [.obs obs_expr, .expr k_expr]⟩

/-- Embeds clearance: systemic clearance rule whose rate is the
Expression CL / V with V the compartment's own size parameter. -/
def clearance (species : Species) (compartment : Compartment) (cl : VP) : MacroOut :=
  let b := species.baseName
  let cn := compartment.name
  let sp := check_for_monomer species compartment
  let CL := vpUse (mkNm "CL_" b cn "") cl
  let pc := vpNew (mkNm "CL_" b cn "") cl
  let k_expr : ExpressionC :=
    ⟨mkNm "k_CL_expr_" b cn "", .div (.par CL) (.par compartment.size)⟩
  let mr := mkRule1 (mkNm "clearance_" b cn "") (mkNm "clearance_" b cn "_k")
    ⟨some sp, none, false⟩ (.expr k_expr)
  ⟨parsC pc ++ [.expr k_expr] ++ mr.created,
   mr.returned ++ [.expr k_expr] ++ parsC pc⟩

/-- Embeds distribute: reversible redistribution between two compartments. -/
def distribute (species : Species) (c1 c2 : Compartment) (kf kr : RateArg) :
    Except PkError MacroOut :=
  let label := species.baseName ++ "_" ++ c1.name ++ "_to_" ++ c2.name
  let s1 := check_for_monomer species c1
  let s2 := check_for_monomer species c2
  mkRule2 ("distribute_" ++ label) ("distribute_" ++ label ++ "_kf")
    ("distribute_" ++ label ++ "_kr") ⟨some s1, some s2, true⟩ kf kr

/-- Embeds transfer: irreversible transfer between two compartments. -/
def transfer (species : Species) (c1 c2 : Compartment) (k : VP) : MacroOut :=
  let label := species.baseName ++ "_" ++ c1.name ++ "_to_" ++ c2.name
  let s1 := check_for_monomer species c1
  let s2 := check_for_monomer species c2
  mkRule1 ("transfer_" ++ label) ("transfer_" ++ label ++ "_k")
    ⟨some s1, some s2, false⟩ k.toRate

/-- Embeds emax: Observable plus Emax effect Expression, no rule. -/
def emax (species : Species) (compartment : Compartment) (emaxA ec50 : VP) : MacroOut :=
  let b := species.baseName
  let cn := compartment.name
  let sp := check_for_monomer species compartment
  let Emax := vpUse (mkNm "Emax_" b cn "") emaxA
  let EC50 := vpUse (mkNm "EC50_" b cn "") ec50
  let pc := vpNew (mkNm "Emax_" b cn "") emaxA ++ vpNew (mkNm "EC50_" b cn "") ec50
  let obs_expr : Observable := ⟨mkNm "_obs_emax_expr_" b cn "", sp⟩
  let expr : ExpressionC :=
    ⟨mkNm "Emax_expr_" b cn "",
     .div (.mul (.par Emax) (.obs obs_expr)) (.add (.obs obs_expr) (.par EC50))⟩
  ⟨parsC pc ++ [.obs obs_expr, .expr expr], [.obs obs_expr, .expr expr] ++ parsC pc⟩

/-- Embeds sigmoidal_emax: Observable plus Hill-form effect Expression,
no rule. -/
def sigmoidal_emax (species : Species) (compartment : Compartment)
    (emaxA ec50 n : VP) : MacroOut :=
  let b := species.baseName
  let cn := compartment.name
  let sp := check_for_monomer species compartment
  let Emax := vpUse (mkNm "Emax_" b cn "") emaxA
  let EC50 := vpUse (mkNm "EC50_" b cn "") ec50
  let hill_coeff := vpUse (mkNm "n_" b cn "") n
  let pc := vpNew (mkNm "Emax_" b cn "") emaxA ++ vpNew (mkNm "EC50_" b cn "") ec50
    ++ vpNew (mkNm "n_" b cn "") n
  let obs_expr : Observable := ⟨mkNm "_obs_emax_expr_" b cn "", sp⟩
  let expr : ExpressionC :=
    ⟨mkNm "Emax_expr_" b cn "",
     .div (.mul (.par Emax) (.pow (.obs obs_expr) (.par hill_coeff)))
       (.add (.pow (.obs obs_expr) (.par hill_coeff))
         (.pow (.par EC50) (.par hill_coeff)))⟩
  ⟨parsC pc ++ [.obs obs_expr, .expr expr], [.obs obs_expr, .expr expr] ++ parsC pc⟩

/-- Embeds linear_effect: Observable plus slope * obs + intercept. -/
def linear_effect (species : Species) (compartment : Compartment)
    (slope intercept : VP) : MacroOut :=
  let b := species.baseName
  let cn := compartment.name
  let sp := check_for_monomer species compartment
  let M := vpUse (mkNm "LinEffect_Slope_" b cn "") slope
  let B := vpUse (mkNm "LinEffect_Intercept_" b cn "") intercept
  let pc := vpNew (mkNm "LinEffect_Slope_" b cn "") slope
    ++ vpNew (mkNm "LinEffect_Intercept_" b cn "") intercept
  let obs_expr : Observable := ⟨mkNm "_obs_lineffect_expr_" b cn "", sp⟩
  let expr : ExpressionC :=
    ⟨mkNm "LinearEffect_expr_" b cn "", .add (.mul (.par M) (.obs obs_expr)) (.par B)⟩
  ⟨parsC pc ++ [.obs obs_expr, .expr expr], [.obs obs_expr, .expr expr] ++ parsC pc⟩

/-- Embeds loglinear_effect: slope * log(obs) + intercept, with an
optional logarithm base (natural log when absent). -/
def loglinear_effect (species : Species) (compartment : Compartment)
    (slope intercept : VP) (base : Option ℚ) : MacroOut :=
  let b := species.baseName
  let cn := compartment.name
  let sp := check_for_monomer species compartment
  let M := vpUse (mkNm "LogLinEffect_Slope_" b cn "") slope
  let B := vpUse (mkNm "LogLinEffect_Intercept_" b cn "") intercept
  let pc := vpNew (mkNm "LogLinEffect_Slope_" b cn "") slope
    ++ vpNew (mkNm "LogLinEffect_Intercept_" b cn "") intercept
  let obs_expr : Observable := ⟨mkNm "_obs_loglinearffect_expr_" b cn "", sp⟩
  let expr : ExpressionC :=
    match base with
    | none =>
        ⟨mkNm "LogLinearEffect_expr_" b cn "",
         .add (.mul (.par M) (.log (.obs obs_expr))) (.par B)⟩
    | some bq =>
        ⟨mkNm "LogLinearEffect_expr_" b cn "",
         .add (.mul (.par M) (.logB (.obs obs_expr) (.lit bq))) (.par B)⟩
  ⟨parsC pc ++ [.obs obs_expr, .expr expr], [.obs obs_expr, .expr expr] ++ parsC pc⟩

/-- Embeds fixed_effect: piecewise effect, e_fixed when obs exceeds the
threshold, else 0. -/
def fixed_effect (species : Species) (compartment : Compartment)
    (e_fixed c_threshold : VP) : MacroOut :=
  let b := species.baseName
  let cn := compartment.name
  let sp := check_for_monomer species compartment
  let E_fixed := vpUse (mkNm "Efixed_" b cn "") e_fixed
  let C_threshold := vpUse (mkNm "Cthreshold_" b cn "") c_threshold
  let pc := vpNew (mkNm "Efixed_" b cn "") e_fixed
    ++ vpNew (mkNm "Cthreshold_" b cn "") c_threshold
  let obs_expr : Observable := ⟨mkNm "_obs_fixedeffect_expr_" b cn "", sp⟩
  let expr : ExpressionC :=
    ⟨mkNm "FixedEffect_expr_" b cn "",
     .stepGt (.par E_fixed) (.obs obs_expr) (.par C_threshold)⟩
  ⟨parsC pc ++ [.obs obs_expr, .expr expr], [.obs obs_expr, .expr expr] ++ parsC pc⟩

/-- Embeds dose_bolus: mint or reuse the dose Parameter, create the
dose-to-concentration Expression dose / V, and bind it as an Initial on
the species; the Initial is created but only params_created is returned. -/
def dose_bolus (species : Species) (compartment : Compartment) (dose : VP) : MacroOut :=
  let b := species.baseName
  let cn := compartment.name
  let sp := check_for_monomer species compartment
  let Dose := vpUse (mkNm "dose_" b cn "") dose
  let dose_expr : ExpressionC :=
    ⟨mkNm "expr_" b cn "_0", .div (.par Dose) (.par compartment.size)⟩
  let pc := vpNew (mkNm "dose_" b cn "") dose
  ⟨parsC pc ++ [.expr dose_expr, .init ⟨sp, dose_expr⟩],
   parsC pc ++ [.expr dose_expr]⟩

/-- Embeds dose_infusion: zero-order production rule None >> species at
the rate Expression dose / V. -/
def dose_infusion (species : Species) (compartment : Compartment) (dose : VP) : MacroOut :=
  let b := species.baseName
  let cn := compartment.name
  let sp := check_for_monomer species compartment
  let Dose := vpUse (mkNm "dose_" b cn "") dose
  let dose_expr : ExpressionC :=
    ⟨mkNm "expr_" b cn "_k0", .div (.par Dose) (.par compartment.size)⟩
  let pc := vpNew (mkNm "dose_" b cn "") dose
  let mr := mkRule1 (mkNm "infuse_" b cn "") (mkNm "infuse_" b cn "_k0")
    ⟨none, some sp, false⟩ (.expr dose_expr)
  ⟨parsC pc ++ [.expr dose_expr] ++ mr.created,
   mr.returned ++ parsC pc ++ [.expr dose_expr]⟩

/-- Embeds dose_absorbed: mint a precursor Monomer, give it the initial
amount Expression precursor_0 = (dose / V) * F (the Expression name is
the fixed string precursor_0), and convert precursor to species at rate
ka. -/
def dose_absorbed (species : Species) (compartment : Compartment)
    (dose ka f : VP) : MacroOut :=
  let b := species.baseName
  let cn := compartment.name
  let sp := check_for_monomer species compartment
  let precursor : Monomer := ⟨mkNm "" b cn "_precursor"⟩
  let Dose := vpUse (mkNm "dose_" b cn "") dose
  let dose_expr : ExpressionC :=
    ⟨mkNm "expr_" b cn "_dose", .div (.par Dose) (.par compartment.size)⟩
  let pcDose := parsC (vpNew (mkNm "dose_" b cn "") dose) ++ [.expr dose_expr]
  let kaP := vpUse (mkNm "ka_" b cn "") ka
  let pcKa := parsC (vpNew (mkNm "ka_" b cn "") ka)
  let F := vpUse (mkNm "F_" b cn "") f
  let pcF := parsC (vpNew (mkNm "F_" b cn "") f)
  let pre0 : ExpressionC := ⟨"precursor_0", .mul (.exprR dose_expr.name) (.par F)⟩
  let initPre : InitialC := ⟨⟨precursor, compartment⟩, pre0⟩
  let mr := mkRule1 (mkNm "absorb_" b cn "") (mkNm "absorb_" b cn "_ka")
    ⟨some ⟨precursor, compartment⟩, some sp, false⟩ (.par kaP)
  ⟨[.mono precursor] ++ pcDose ++ pcKa ++ pcF ++ [.expr pre0, .init initPre] ++ mr.created,
   mr.returned ++ pcDose ++ pcKa ++ pcF ++ [.mono precursor]⟩

/-- Dosing route constructors registered in DOSING_OPTIONS. -/
inductive DoseTag where
  | bolus
  | infusion
  | absorbed
deriving DecidableEq

/-- Embeds the DOSING_OPTIONS dict lookup: registered keys are iv-bolus,
iv-infusion and oral; any other key is a KeyError. -/
def dosingLookup (key : String) : Option DoseTag :=
  if key = "iv-bolus" then some .bolus
  else if key = "iv-infusion" then some .infusion
  else if key = "oral" then some .absorbed
  else none

/-- PD model constructors registered in PD_MODELS. -/
inductive PdTag where
  | emaxT
  | sigmoidalT
  | linearT
  | loglinearT
  | fixedT
deriving DecidableEq

/-- Embeds the PD_MODELS dict lookup: the five registered PD model names. -/
def pdLookup (key : String) : Option PdTag :=
  if key = "emax" then some .emaxT
  else if key = "sigmoidal-emax" then some .sigmoidalT
  else if key = "linear" then some .linearT
  else if key = "log-linear" then some .loglinearT
  else if key = "fixed" then some .fixedT
  else none

/-- Keyword arguments handed to a dose constructor through
dose_parameters (only the oral route uses ka and f). -/
structure DoseKw where
  ka : Option VP
  f : Option VP
deriving DecidableEq

/-- Keyword arguments handed to a PD constructor through the pd_model
dict values. -/
structure PdKw where
  emaxK : Option VP
  ec50K : Option VP
  nK : Option VP
  slopeK : Option VP
  interceptK : Option VP
  e_fixedK : Option VP
  c_thresholdK : Option VP
deriving DecidableEq

/-- Invoke the dose constructor selected from DOSING_OPTIONS with the
route-specific keyword arguments; a keyword the constructor does not
accept, or a missing required one, is a TypeError as in Python. -/
def invokeDose (tag : DoseTag) (sp : Species) (c : Compartment) (dose : VP)
    (dp : Option DoseKw) : Except PkError MacroOut :=
  let kw := dp.getD ⟨none, none⟩
  match tag with
  | .bolus =>
      match kw.ka, kw.f with
      | none, none => .ok (dose_bolus sp c dose)
      | _, _ => .error .typeErr
  | .infusion =>
      match kw.ka, kw.f with
      | none, none => .ok (dose_infusion sp c dose)
      | _, _ => .error .typeErr
  | .absorbed =>
      match kw.ka, kw.f with
      | some ka, some f => .ok (dose_absorbed sp c dose ka f)
      | _, _ => .error .typeErr

/-- Invoke the PD constructor selected from PD_MODELS with its keyword
arguments; a missing required keyword is a TypeError as in Python. -/
def invokePd (tag : PdTag) (sp : Species) (c : Compartment) (kw : PdKw) :
    Except PkError MacroOut :=
  match tag with
  | .emaxT =>
      match kw.emaxK, kw.ec50K with
      | some e, some e50 => .ok (emax sp c e e50)
      | _, _ => .error .typeErr
  | .sigmoidalT =>
      match kw.emaxK, kw.ec50K, kw.nK with
      | some e, some e50, some n => .ok (sigmoidal_emax sp c e e50 n)
      | _, _, _ => .error .typeErr
  | .linearT =>
      match kw.slopeK with
      | some s => .ok (linear_effect sp c s (kw.interceptK.getD (.num 0)))
      | none => .error .typeErr
  | .loglinearT =>
      match kw.slopeK with
      | some s => .ok (loglinear_effect sp c s (kw.interceptK.getD (.num 0)) none)
      | none => .error .typeErr
  | .fixedT =>
      match kw.e_fixedK, kw.c_thresholdK with
      | some e, some t => .ok (fixed_effect sp c e t)
      | _, _ => .error .typeErr

/-- Process the pd_model dict in insertion order: look each key up in
PD_MODELS (KeyError when absent) and run the constructor. -/
def applyPdList (sp : Species) (c : Compartment) :
    Model → List (String × PdKw) → Except PkError Model
  | m, [] => .ok m
  | m, (key, kw) :: rest => do
      match pdLookup key with
      | none => .error (.keyErr key)
      | some tag => do
          let out ← invokePd tag sp c kw
          let m' ← applyOut m out
          applyPdList sp c m' rest

/-- Embeds one_compartment_model from standard.py: drug monomer, Vd,
CENTRAL compartment, dose parameter, dose route dispatch, optional
clearance, optional PD models. -/
def one_compartment_model (dose_amount : ℚ) (dose_route : String)
    (dose_parameters : Option DoseKw) (volume_distribution : ℚ)
    (clearanceV : ℚ) (pd_model : Option (List (String × PdKw))) :
    Except PkError Model := do
  let m0 : Model := ⟨[]⟩
  let m1 ← applyOut m0 (drug_monomer "Drug")
  let Vd : Parameter := ⟨"Vd", volume_distribution⟩
  let m2 ← addComponent m1 (.par Vd)
  let m3 ← applyOut m2 (one_compartment "CENTRAL" (.par Vd))
  let drugSp : Species := .mono ⟨"Drug"⟩
  let central : Compartment := ⟨"CENTRAL", Vd⟩
  let doseP : Parameter := ⟨"dose", dose_amount⟩
  let m4 ← addComponent m3 (.par doseP)
  let m5 ←
    match dosingLookup dose_route with
    | none => .error (.keyErr dose_route)
    | some tag => do
        let out ← invokeDose tag drugSp central (.par doseP) dose_parameters
        applyOut m4 out
  let m6 ←
    if clearanceV > 0 then do
      let clP : Parameter := ⟨"CL", clearanceV⟩
      let mA ← addComponent m5 (.par clP)
      applyOut mA (clearance drugSp central (.par clP))
    else pure m5
  match pd_model with
  | none => pure m6
  | some l => applyPdList drugSp central m6 l

/-- Embeds two_compartment_model from standard.py. -/
def two_compartment_model (dose_amount : ℚ) (dose_route : String)
    (dose_parameters : Option DoseKw) (volume_central volume_peripheral : ℚ)
    (k12 k21 : ℚ) (clearanceV : ℚ)
    (pd_model : Option (List (String × PdKw))) : Except PkError Model := do
  let m0 : Model := ⟨[]⟩
  let m1 ← applyOut m0 (drug_monomer "Drug")
  let Vc : Parameter := ⟨"Vc", volume_central⟩
  let Vp : Parameter := ⟨"Vp", volume_peripheral⟩
  let m2 ← addComponent m1 (.par Vc)
  let m2b ← addComponent m2 (.par Vp)
  let m3 ← applyOut m2b (two_compartments "CENTRAL" (.par Vc) "PERIPHERAL" (.par Vp))
  let drugSp : Species := .mono ⟨"Drug"⟩
  let central : Compartment := ⟨"CENTRAL", Vc⟩
  let periph : Compartment := ⟨"PERIPHERAL", Vp⟩
  let doseP : Parameter := ⟨"dose", dose_amount⟩
  let m4 ← addComponent m3 (.par doseP)
  let m5 ←
    match dosingLookup dose_route with
    | none => .error (.keyErr dose_route)
    | some tag => do
        let out ← invokeDose tag drugSp central (.par doseP) dose_parameters
        applyOut m4 out
  let m6 ←
    if clearanceV > 0 then do
      let clP : Parameter := ⟨"CL", clearanceV⟩
      let mA ← addComponent m5 (.par clP)
      applyOut mA (clearance drugSp central (.par clP))
    else pure m5
  let m7 ←
    match pd_model with
    | none => pure m6
    | some l => applyPdList drugSp central m6 l
  let outD ← distribute drugSp central periph (.num k12) (.num k21)
  applyOut m7 outD

/-- Embeds three_compartment_model from standard.py. -/
def three_compartment_model (dose_amount : ℚ) (dose_route : String)
    (dose_parameters : Option DoseKw)
    (volume_central volume_peripheral volume_deep_peripheral : ℚ)
    (k12 k21 k13 k31 : ℚ) (clearanceV : ℚ)
    (pd_model : Option (List (String × PdKw))) : Except PkError Model := do
  let m0 : Model := ⟨[]⟩
  let m1 ← applyOut m0 (drug_monomer "Drug")
  let Vc : Parameter := ⟨"Vc", volume_central⟩
  let Vp : Parameter := ⟨"Vp", volume_peripheral⟩
  let Vdp : Parameter := ⟨"Vdp", volume_deep_peripheral⟩
  let m2 ← addComponent m1 (.par Vc)
  let m2b ← addComponent m2 (.par Vp)
  let m2c ← addComponent m2b (.par Vdp)
  let m3 ← applyOut m2c (three_compartments "CENTRAL" (.par Vc) "PERIPHERAL" (.par Vp)
    "DEEPPERIPHERAL" (.par Vdp))
  let drugSp : Species := .mono ⟨"Drug"⟩
  let central : Compartment := ⟨"CENTRAL", Vc⟩
  let periph : Compartment := ⟨"PERIPHERAL", Vp⟩
  let deep : Compartment := ⟨"DEEPPERIPHERAL", Vdp⟩
  let doseP : Parameter := ⟨"dose", dose_amount⟩
  let m4 ← addComponent m3 (.par doseP)
  let m5 ←
    match dosingLookup dose_route with
    | none => .error (.keyErr dose_route)
    | some tag => do
        let out ← invokeDose tag drugSp central (.par doseP) dose_parameters
        applyOut m4 out
  let m6 ←
    if clearanceV > 0 then do
      let clP : Parameter := ⟨"CL", clearanceV⟩
      let mA ← addComponent m5 (.par clP)
      applyOut mA (clearance drugSp central (.par clP))
    else pure m5
  let m7 ←
    match pd_model with
    | none => pure m6
    | some l => applyPdList drugSp central m6 l
  let outD ← distribute drugSp central periph (.num k12) (.num k21)
  let m8 ← applyOut m7 outD
  let outD2 ← distribute drugSp central deep (.num k13) (.num k31)
  applyOut m8 outD2

/-- Decidable equality for Except results, used to evaluate concrete
model-building runs. -/
instance {ε α : Type} [DecidableEq ε] [DecidableEq α] : DecidableEq (Except ε α) :=
  fun x y =>
    match x, y with
    | .ok a, .ok b =>
        if h : a = b then .isTrue (by rw [h])
        else .isFalse (by intro hh; exact h (Except.ok.inj hh))
    | .error a, .error b =>
        if h : a = b then .isTrue (by rw [h])
        else .isFalse (by intro hh; exact h (Except.error.inj hh))
    | .ok _, .error _ => .isFalse (by intro hh; exact Except.noConfusion hh)
    | .error _, .ok _ => .isFalse (by intro hh; exact Except.noConfusion hh)

/-- The Parameter components of a component list. -/
def paramsOf (l : List Component) : List Parameter :=
  l.filterMap fun c => match c with
    | .par p => some p
    | _ => none

/-- The Monomer components of a component list. -/
def monosOf (l : List Component) : List Monomer :=
  l.filterMap fun c => match c with
    | .mono m => some m
    | _ => none

/-- The Compartment components of a component list. -/
def compsOf (l : List Component) : List Compartment :=
  l.filterMap fun c => match c with
    | .comp x => some x
    | _ => none

/-- The Observable components of a component list. -/
def obssOf (l : List Component) : List Observable :=
  l.filterMap fun c => match c with
    | .obs o => some o
    | _ => none

/-- The Expression components of a component list. -/
def exprsOf (l : List Component) : List ExpressionC :=
  l.filterMap fun c => match c with
    | .expr e => some e
    | _ => none

/-- The Rule components of a component list. -/
def rulesOf (l : List Component) : List RuleC :=
  l.filterMap fun c => match c with
    | .rule r => some r
    | _ => none

/-- The initial conditions of a component list. -/
def initsOf (l : List Component) : List InitialC :=
  l.filterMap fun c => match c with
    | .init i => some i
    | _ => none

/-- The registered names of a component list. -/
def namesOf (l : List Component) : List String :=
  l.filterMap Component.nameOf

/-- Component counts of a model, by kind. -/
structure Counts where
  nMono : ℕ
  nComp : ℕ
  nPar : ℕ
  nObs : ℕ
  nExpr : ℕ
  nRule : ℕ
  nInit : ℕ
deriving DecidableEq

/-- Count the components of a model by kind. -/
def countsOf (m : Model) : Counts :=
  ⟨(monosOf m.components).length, (compsOf m.components).length,
   (paramsOf m.components).length, (obssOf m.components).length,
   (exprsOf m.components).length, (rulesOf m.components).length,
   (initsOf m.components).length⟩

/-- Claim C2: for every species, compartment and clearance argument,
clearance emits exactly one unidirectional depletion rule (reactant the
compartment-qualified species, no product), whose rate is the named
Expression whose body is exactly CL / V, where CL is the reused-or-minted
clearance Parameter and V is the compartment's own size parameter. -/
theorem claim_C2_clearance_rate (sp : Species) (c : Compartment) (cl : VP) :
    rulesOf (clearance sp c cl).returned =
      [⟨mkNm "clearance_" sp.baseName c.name "",
        ⟨some (check_for_monomer sp c), none, false⟩,
        [.expr ⟨mkNm "k_CL_expr_" sp.baseName c.name "",
          .div (.par (vpUse (mkNm "CL_" sp.baseName c.name "") cl)) (.par c.size)⟩]⟩] ∧
    exprsOf (clearance sp c cl).returned =
      [⟨mkNm "k_CL_expr_" sp.baseName c.name "",
        .div (.par (vpUse (mkNm "CL_" sp.baseName c.name "") cl)) (.par c.size)⟩] := by
  cases cl <;> exact ⟨rfl, rfl⟩

/-- Claim C3: for numeric vmax and km, eliminate_mm creates exactly one
new Observable over the compartment-qualified species pattern and exactly
one new Expression vmax / (obs + km) over that Observable, and the
emitted rule's rate is that Expression, not a bare Parameter. -/
theorem claim_C3_eliminate_mm (sp : Species) (c : Compartment) (vmax km : ℚ) :
    obssOf (eliminate_mm sp c (.num vmax) (.num km)).created =
      [⟨mkNm "_obs_expr_" sp.baseName c.name "", check_for_monomer sp c⟩] ∧
    exprsOf (eliminate_mm sp c (.num vmax) (.num km)).created =
      [⟨mkNm "k_expr_" sp.baseName c.name "",
        .div (.par ⟨mkNm "Vmax_" sp.baseName c.name "", vmax⟩)
          (.add (.obs ⟨mkNm "_obs_expr_" sp.baseName c.name "", check_for_monomer sp c⟩)
            (.par ⟨mkNm "Km_" sp.baseName c.name "", km⟩))⟩] ∧
    rulesOf (eliminate_mm sp c (.num vmax) (.num km)).created =
      [⟨mkNm "eliminate_mm_" sp.baseName c.name "",
        ⟨some (check_for_monomer sp c), none, false⟩,
        [.expr ⟨mkNm "k_expr_" sp.baseName c.name "",
          .div (.par ⟨mkNm "Vmax_" sp.baseName c.name "", vmax⟩)
            (.add (.obs ⟨mkNm "_obs_expr_" sp.baseName c.name "", check_for_monomer sp c⟩)
              (.par ⟨mkNm "Km_" sp.baseName c.name "", km⟩))⟩]⟩] ∧
    ∀ p : Parameter,
      (rulesOf (eliminate_mm sp c (.num vmax) (.num km)).created).map RuleC.rates ≠
        [[RateLaw.par p]] := by
  refine ⟨rfl, rfl, rfl, ?_⟩
  intro p h
  simp [eliminate_mm, mkRule1, rulesOf, parsC, vpNew, vpUse] at h

/-- Claim C5: dose_absorbed creates exactly one auxiliary precursor
Monomer, exactly one Initial binding the compartment-qualified precursor
to the amount (dose / V) * f (the precursor_0 Expression over the
dose-to-concentration Expression), and exactly one irreversible
conversion rule precursor to species with first-order rate ka. -/
theorem claim_C5_dose_absorbed (sp : Species) (c : Compartment) (dose ka f : VP) :
    monosOf (dose_absorbed sp c dose ka f).created =
      [⟨mkNm "" sp.baseName c.name "_precursor"⟩] ∧
    initsOf (dose_absorbed sp c dose ka f).created =
      [⟨⟨⟨mkNm "" sp.baseName c.name "_precursor"⟩, c⟩,
        ⟨"precursor_0",
         .mul (.exprR (mkNm "expr_" sp.baseName c.name "_dose"))
           (.par (vpUse (mkNm "F_" sp.baseName c.name "") f))⟩⟩] ∧
    (exprsOf (dose_absorbed sp c dose ka f).created).head? =
      some ⟨mkNm "expr_" sp.baseName c.name "_dose",
        .div (.par (vpUse (mkNm "dose_" sp.baseName c.name "") dose)) (.par c.size)⟩ ∧
    rulesOf (dose_absorbed sp c dose ka f).created =
      [⟨mkNm "absorb_" sp.baseName c.name "",
        ⟨some ⟨⟨mkNm "" sp.baseName c.name "_precursor"⟩, c⟩,
         some (check_for_monomer sp c), false⟩,
        [.par (vpUse (mkNm "ka_" sp.baseName c.name "") ka)]⟩] := by
  cases dose <;> cases ka <;> cases f <;> exact ⟨rfl, rfl, rfl, rfl⟩

/-- Base model holding an existing Drug monomer and CENTRAL compartment,
as in claim C8. -/
def c8Base : Model :=
  ⟨[.mono ⟨"Drug"⟩, .par ⟨"V_CENTRAL", 1⟩, .comp ⟨"CENTRAL", ⟨"V_CENTRAL", 1⟩⟩]⟩

/-- The sigmoidal_emax call of claim C8. -/
def c8Out : MacroOut :=
  sigmoidal_emax (.mono ⟨"Drug"⟩) ⟨"CENTRAL", ⟨"V_CENTRAL", 1⟩⟩
    (.num 10) (.num 100) (.num 2)

/-- Claim C8 as stated is false: sigmoidal_emax with numeric emax, ec50
and n adds 3 parameters, not 4. -/
theorem claim_C8_counterexample : ¬ (paramsOf c8Out.created).length = 4 := by
  decide

/-- Claim C8 amended: sigmoidal_emax(Drug, CENTRAL, 10, 100, 2) on a
model with an existing Drug monomer and CENTRAL compartment succeeds and
adds exactly 3 parameters (Emax, EC50, n), 1 observable, 1 expression
and 0 rules. -/
theorem claim_C8_amended :
    applyOut c8Base c8Out = .ok ⟨c8Base.components ++ c8Out.created⟩ ∧
    (paramsOf c8Out.created).map Parameter.name =
      ["Emax_Drug_CENTRAL", "EC50_Drug_CENTRAL", "n_Drug_CENTRAL"] ∧
    (obssOf c8Out.created).length = 1 ∧
    (exprsOf c8Out.created).length = 1 ∧
    (rulesOf c8Out.created).length = 0 ∧
    (initsOf c8Out.created).length = 0 := by
  refine ⟨by decide, by decide, by decide, by decide, by decide, by decide⟩

/-- Claim C9: dose_bolus creates an Initial on the compartment-qualified
species, but its returned ComponentSet holds only the dose-to-
concentration Expression and, for a numeric dose, the minted dose
Parameter; the Initial is never in the returned set. -/
theorem claim_C9_dose_bolus (sp : Species) (c : Compartment) (dose : VP) :
    initsOf (dose_bolus sp c dose).created =
      [⟨check_for_monomer sp c,
        ⟨mkNm "expr_" sp.baseName c.name "_0",
         .div (.par (vpUse (mkNm "dose_" sp.baseName c.name "") dose)) (.par c.size)⟩⟩] ∧
    (dose_bolus sp c dose).returned =
      parsC (vpNew (mkNm "dose_" sp.baseName c.name "") dose) ++
        [.expr ⟨mkNm "expr_" sp.baseName c.name "_0",
          .div (.par (vpUse (mkNm "dose_" sp.baseName c.name "") dose)) (.par c.size)⟩] ∧
    ∀ i : InitialC, Component.init i ∉ (dose_bolus sp c dose).returned := by
  refine ⟨by cases dose <;> rfl, by cases dose <;> rfl, ?_⟩
  intro i h
  cases dose <;> simp [dose_bolus, parsC, vpNew] at h

/-- Claim C7: the preset one-compartment model with bolus dose 100,
distribution volume 1, clearance 1/2 and no PD model builds successfully
and holds exactly 1 monomer, 1 compartment, 3 parameters, 2 expressions
(the dose-to-concentration and clearance-to-rate expressions, in that
order), 1 rule and 1 initial condition. -/
theorem claim_C7_one_compartment_counts :
    (one_compartment_model 100 "iv-bolus" none 1 (mkRat 1 2) none).map countsOf =
      .ok ⟨1, 1, 3, 0, 2, 1, 1⟩ ∧
    (one_compartment_model 100 "iv-bolus" none 1 (mkRat 1 2) none).map
        (fun m => (exprsOf m.components).map ExpressionC.name) =
      .ok ["expr_Drug_CENTRAL_0", "k_CL_expr_Drug_CENTRAL"] ∧
    (one_compartment_model 100 "iv-bolus" none 1 (mkRat 1 2) none).map
        (fun m => (paramsOf m.components).map Parameter.name) =
      .ok ["Vd", "dose", "CL"] := by
  exact ⟨by decide, by decide, by decide⟩

/-- Claim C1: every constructor, given a value-or-parameter argument,
creates no Parameter when a Parameter is passed (using it unchanged at
its use site) and exactly one Parameter, deterministically named from the
role tag, base entity name and compartment name, when a number is
passed, returning it in the component set.  vpUse picks the passed
Parameter unchanged or the minted one; vpNew lists exactly the minted
Parameters (none for a passed Parameter, one for a number). -/
theorem claim_C1_param_reuse_and_naming :
    (∀ (nm : String) (v : VP),
      paramsOf (one_compartment nm v).created = vpNew ("V_" ++ nm) v ∧
      parsC (vpNew ("V_" ++ nm) v) ⊆ (one_compartment nm v).returned ∧
      compsOf (one_compartment nm v).created = [⟨nm, vpUse ("V_" ++ nm) v⟩]) ∧
    (∀ (n1 n2 : String) (v1 v2 : VP),
      paramsOf (two_compartments n1 v1 n2 v2).created =
        vpNew ("V_" ++ n1) v1 ++ vpNew ("V_" ++ n2) v2 ∧
      parsC (vpNew ("V_" ++ n1) v1 ++ vpNew ("V_" ++ n2) v2) ⊆
        (two_compartments n1 v1 n2 v2).returned ∧
      compsOf (two_compartments n1 v1 n2 v2).created =
        [⟨n1, vpUse ("V_" ++ n1) v1⟩, ⟨n2, vpUse ("V_" ++ n2) v2⟩]) ∧
    (∀ (n1 n2 n3 : String) (v1 v2 v3 : VP),
      paramsOf (three_compartments n1 v1 n2 v2 n3 v3).created =
        vpNew ("V_" ++ n1) v1 ++ vpNew ("V_" ++ n2) v2 ++ vpNew ("V_" ++ n3) v3 ∧
      parsC (vpNew ("V_" ++ n1) v1 ++ vpNew ("V_" ++ n2) v2 ++ vpNew ("V_" ++ n3) v3) ⊆
        (three_compartments n1 v1 n2 v2 n3 v3).returned) ∧
    (∀ (sp : Species) (c : Compartment) (kel : VP),
      paramsOf (eliminate sp c kel).created =
        vpNew (mkNm "eliminate_" sp.baseName c.name "_k") kel ∧
      parsC (vpNew (mkNm "eliminate_" sp.baseName c.name "_k") kel) ⊆
        (eliminate sp c kel).returned ∧
      rulesOf (eliminate sp c kel).created =
        [⟨mkNm "eliminate_" sp.baseName c.name "",
          ⟨some (check_for_monomer sp c), none, false⟩,
          [.par (vpUse (mkNm "eliminate_" sp.baseName c.name "_k") kel)]⟩]) ∧
    (∀ (sp : Species) (c : Compartment) (vmax km : VP),
      paramsOf (eliminate_mm sp c vmax km).created =
        vpNew (mkNm "Vmax_" sp.baseName c.name "") vmax ++
          vpNew (mkNm "Km_" sp.baseName c.name "") km ∧
      parsC (vpNew (mkNm "Vmax_" sp.baseName c.name "") vmax ++
          vpNew (mkNm "Km_" sp.baseName c.name "") km) ⊆
        (eliminate_mm sp c vmax km).returned ∧
      exprsOf (eliminate_mm sp c vmax km).created =
        [⟨mkNm "k_expr_" sp.baseName c.name "",
          .div (.par (vpUse (mkNm "Vmax_" sp.baseName c.name "") vmax))
            (.add (.obs ⟨mkNm "_obs_expr_" sp.baseName c.name "", check_for_monomer sp c⟩)
              (.par (vpUse (mkNm "Km_" sp.baseName c.name "") km)))⟩]) ∧
    (∀ (sp : Species) (c : Compartment) (cl : VP),
      paramsOf (clearance sp c cl).created =
        vpNew (mkNm "CL_" sp.baseName c.name "") cl ∧
      parsC (vpNew (mkNm "CL_" sp.baseName c.name "") cl) ⊆
        (clearance sp c cl).returned ∧
      exprsOf (clearance sp c cl).created =
        [⟨mkNm "k_CL_expr_" sp.baseName c.name "",
          .div (.par (vpUse (mkNm "CL_" sp.baseName c.name "") cl)) (.par c.size)⟩]) ∧
    (∀ (sp : Species) (c1 c2 : Compartment) (a b : ℚ),
      distribute sp c1 c2 (.num a) (.num b) = .ok
        ⟨[.par ⟨"distribute_" ++ (sp.baseName ++ "_" ++ c1.name ++ "_to_" ++ c2.name) ++ "_kf", a⟩,
          .par ⟨"distribute_" ++ (sp.baseName ++ "_" ++ c1.name ++ "_to_" ++ c2.name) ++ "_kr", b⟩,
          .rule ⟨"distribute_" ++ (sp.baseName ++ "_" ++ c1.name ++ "_to_" ++ c2.name),
            ⟨some (check_for_monomer sp c1), some (check_for_monomer sp c2), true⟩,
            [.par ⟨"distribute_" ++ (sp.baseName ++ "_" ++ c1.name ++ "_to_" ++ c2.name) ++ "_kf", a⟩,
             .par ⟨"distribute_" ++ (sp.baseName ++ "_" ++ c1.name ++ "_to_" ++ c2.name) ++ "_kr", b⟩]⟩],
         [.rule ⟨"distribute_" ++ (sp.baseName ++ "_" ++ c1.name ++ "_to_" ++ c2.name),
            ⟨some (check_for_monomer sp c1), some (check_for_monomer sp c2), true⟩,
            [.par ⟨"distribute_" ++ (sp.baseName ++ "_" ++ c1.name ++ "_to_" ++ c2.name) ++ "_kf", a⟩,
             .par ⟨"distribute_" ++ (sp.baseName ++ "_" ++ c1.name ++ "_to_" ++ c2.name) ++ "_kr", b⟩]⟩,
          .par ⟨"distribute_" ++ (sp.baseName ++ "_" ++ c1.name ++ "_to_" ++ c2.name) ++ "_kf", a⟩,
          .par ⟨"distribute_" ++ (sp.baseName ++ "_" ++ c1.name ++ "_to_" ++ c2.name) ++ "_kr", b⟩]⟩) ∧
    (∀ (sp : Species) (c1 c2 : Compartment) (p q : Parameter),
      distribute sp c1 c2 (.par p) (.par q) = .ok
        ⟨[.rule ⟨"distribute_" ++ (sp.baseName ++ "_" ++ c1.name ++ "_to_" ++ c2.name),
            ⟨some (check_for_monomer sp c1), some (check_for_monomer sp c2), true⟩,
            [.par p, .par q]⟩],
         [.rule ⟨"distribute_" ++ (sp.baseName ++ "_" ++ c1.name ++ "_to_" ++ c2.name),
            ⟨some (check_for_monomer sp c1), some (check_for_monomer sp c2), true⟩,
            [.par p, .par q]⟩]⟩) ∧
    (∀ (sp : Species) (c1 c2 : Compartment) (k : VP),
      paramsOf (transfer sp c1 c2 k).created =
        vpNew ("transfer_" ++ (sp.baseName ++ "_" ++ c1.name ++ "_to_" ++ c2.name) ++ "_k") k ∧
      parsC (vpNew ("transfer_" ++ (sp.baseName ++ "_" ++ c1.name ++ "_to_" ++ c2.name) ++ "_k") k) ⊆
        (transfer sp c1 c2 k).returned ∧
      rulesOf (transfer sp c1 c2 k).created =
        [⟨"transfer_" ++ (sp.baseName ++ "_" ++ c1.name ++ "_to_" ++ c2.name),
          ⟨some (check_for_monomer sp c1), some (check_for_monomer sp c2), false⟩,
          [.par (vpUse ("transfer_" ++ (sp.baseName ++ "_" ++ c1.name ++ "_to_" ++ c2.name) ++ "_k") k)]⟩]) ∧
    (∀ (sp : Species) (c : Compartment) (e e50 : VP),
      paramsOf (emax sp c e e50).created =
        vpNew (mkNm "Emax_" sp.baseName c.name "") e ++
          vpNew (mkNm "EC50_" sp.baseName c.name "") e50 ∧
      parsC (vpNew (mkNm "Emax_" sp.baseName c.name "") e ++
          vpNew (mkNm "EC50_" sp.baseName c.name "") e50) ⊆ (emax sp c e e50).returned ∧
      exprsOf (emax sp c e e50).created =
        [⟨mkNm "Emax_expr_" sp.baseName c.name "",
          .div (.mul (.par (vpUse (mkNm "Emax_" sp.baseName c.name "") e))
              (.obs ⟨mkNm "_obs_emax_expr_" sp.baseName c.name "", check_for_monomer sp c⟩))
            (.add (.obs ⟨mkNm "_obs_emax_expr_" sp.baseName c.name "", check_for_monomer sp c⟩)
              (.par (vpUse (mkNm "EC50_" sp.baseName c.name "") e50)))⟩]) ∧
    (∀ (sp : Species) (c : Compartment) (e e50 n : VP),
      paramsOf (sigmoidal_emax sp c e e50 n).created =
        vpNew (mkNm "Emax_" sp.baseName c.name "") e ++
          vpNew (mkNm "EC50_" sp.baseName c.name "") e50 ++
          vpNew (mkNm "n_" sp.baseName c.name "") n ∧
      parsC (vpNew (mkNm "Emax_" sp.baseName c.name "") e ++
          vpNew (mkNm "EC50_" sp.baseName c.name "") e50 ++
          vpNew (mkNm "n_" sp.baseName c.name "") n) ⊆ (sigmoidal_emax sp c e e50 n).returned) ∧
    (∀ (sp : Species) (c : Compartment) (s i : VP),
      paramsOf (linear_effect sp c s i).created =
        vpNew (mkNm "LinEffect_Slope_" sp.baseName c.name "") s ++
          vpNew (mkNm "LinEffect_Intercept_" sp.baseName c.name "") i ∧
      parsC (vpNew (mkNm "LinEffect_Slope_" sp.baseName c.name "") s ++
          vpNew (mkNm "LinEffect_Intercept_" sp.baseName c.name "") i) ⊆
        (linear_effect sp c s i).returned ∧
      exprsOf (linear_effect sp c s i).created =
        [⟨mkNm "LinearEffect_expr_" sp.baseName c.name "",
          .add (.mul (.par (vpUse (mkNm "LinEffect_Slope_" sp.baseName c.name "") s))
              (.obs ⟨mkNm "_obs_lineffect_expr_" sp.baseName c.name "", check_for_monomer sp c⟩))
            (.par (vpUse (mkNm "LinEffect_Intercept_" sp.baseName c.name "") i))⟩]) ∧
    (∀ (sp : Species) (c : Compartment) (s i : VP) (base : Option ℚ),
      paramsOf (loglinear_effect sp c s i base).created =
        vpNew (mkNm "LogLinEffect_Slope_" sp.baseName c.name "") s ++
          vpNew (mkNm "LogLinEffect_Intercept_" sp.baseName c.name "") i ∧
      parsC (vpNew (mkNm "LogLinEffect_Slope_" sp.baseName c.name "") s ++
          vpNew (mkNm "LogLinEffect_Intercept_" sp.baseName c.name "") i) ⊆
        (loglinear_effect sp c s i base).returned) ∧
    (∀ (sp : Species) (c : Compartment) (e t : VP),
      paramsOf (fixed_effect sp c e t).created =
        vpNew (mkNm "Efixed_" sp.baseName c.name "") e ++
          vpNew (mkNm "Cthreshold_" sp.baseName c.name "") t ∧
      parsC (vpNew (mkNm "Efixed_" sp.baseName c.name "") e ++
          vpNew (mkNm "Cthreshold_" sp.baseName c.name "") t) ⊆
        (fixed_effect sp c e t).returned ∧
      exprsOf (fixed_effect sp c e t).created =
        [⟨mkNm "FixedEffect_expr_" sp.baseName c.name "",
          .stepGt (.par (vpUse (mkNm "Efixed_" sp.baseName c.name "") e))
            (.obs ⟨mkNm "_obs_fixedeffect_expr_" sp.baseName c.name "", check_for_monomer sp c⟩)
            (.par (vpUse (mkNm "Cthreshold_" sp.baseName c.name "") t))⟩]) ∧
    (∀ (sp : Species) (c : Compartment) (d : VP),
      paramsOf (dose_bolus sp c d).created =
        vpNew (mkNm "dose_" sp.baseName c.name "") d ∧
      parsC (vpNew (mkNm "dose_" sp.baseName c.name "") d) ⊆
        (dose_bolus sp c d).returned ∧
      exprsOf (dose_bolus sp c d).created =
        [⟨mkNm "expr_" sp.baseName c.name "_0",
          .div (.par (vpUse (mkNm "dose_" sp.baseName c.name "") d)) (.par c.size)⟩]) ∧
    (∀ (sp : Species) (c : Compartment) (d : VP),
      paramsOf (dose_infusion sp c d).created =
        vpNew (mkNm "dose_" sp.baseName c.name "") d ∧
      parsC (vpNew (mkNm "dose_" sp.baseName c.name "") d) ⊆
        (dose_infusion sp c d).returned ∧
      exprsOf (dose_infusion sp c d).created =
        [⟨mkNm "expr_" sp.baseName c.name "_k0",
          .div (.par (vpUse (mkNm "dose_" sp.baseName c.name "") d)) (.par c.size)⟩] ∧
      rulesOf (dose_infusion sp c d).created =
        [⟨mkNm "infuse_" sp.baseName c.name "",
          ⟨none, some (check_for_monomer sp c), false⟩,
          [.expr ⟨mkNm "expr_" sp.baseName c.name "_k0",
            .div (.par (vpUse (mkNm "dose_" sp.baseName c.name "") d)) (.par c.size)⟩]⟩]) ∧
    (∀ (sp : Species) (c : Compartment) (d ka f : VP),
      paramsOf (dose_absorbed sp c d ka f).created =
        vpNew (mkNm "dose_" sp.baseName c.name "") d ++
          vpNew (mkNm "ka_" sp.baseName c.name "") ka ++
          vpNew (mkNm "F_" sp.baseName c.name "") f ∧
      parsC (vpNew (mkNm "dose_" sp.baseName c.name "") d ++
          vpNew (mkNm "ka_" sp.baseName c.name "") ka ++
          vpNew (mkNm "F_" sp.baseName c.name "") f) ⊆
        (dose_absorbed sp c d ka f).returned) := by
  refine ⟨?_, ?_, ?_, ?_, ?_, ?_, ?_, ?_, ?_, ?_, ?_, ?_, ?_, ?_, ?_, ?_, ?_⟩
  · intro nm v
    cases v <;> exact ⟨rfl, by simp [parsC, vpNew, one_compartment, vpUse], rfl⟩
  · intro n1 n2 v1 v2
    cases v1 <;> cases v2 <;>
      exact ⟨rfl, by simp [parsC, vpNew, two_compartments, vpUse], rfl⟩
  · intro n1 n2 n3 v1 v2 v3
    cases v1 <;> cases v2 <;> cases v3 <;>
      exact ⟨rfl, by simp [parsC, vpNew, three_compartments, vpUse]⟩
  · intro sp c kel
    cases kel <;>
      exact ⟨rfl, by simp [parsC, vpNew, eliminate, mkRule1, VP.toRate], rfl⟩
  · intro sp c vmax km
    cases vmax <;> cases km <;>
      exact ⟨rfl, by simp [parsC, vpNew, eliminate_mm, mkRule1, vpUse], rfl⟩
  · intro sp c cl
    cases cl <;>
      exact ⟨rfl, by simp [parsC, vpNew, clearance, mkRule1, vpUse], rfl⟩
  · intro sp c1 c2 a b
    rfl
  · intro sp c1 c2 p q
    rfl
  · intro sp c1 c2 k
    cases k <;>
      exact ⟨rfl, by simp [parsC, vpNew, transfer, mkRule1, VP.toRate], rfl⟩
  · intro sp c e e50
    cases e <;> cases e50 <;>
      exact ⟨rfl, by simp [parsC, vpNew, emax, vpUse], rfl⟩
  · intro sp c e e50 n
    cases e <;> cases e50 <;> cases n <;>
      exact ⟨rfl, by simp [parsC, vpNew, sigmoidal_emax, vpUse]⟩
  · intro sp c s i
    cases s <;> cases i <;>
      exact ⟨rfl, by simp [parsC, vpNew, linear_effect, vpUse], rfl⟩
  · intro sp c s i base
    cases s <;> cases i <;> cases base <;>
      exact ⟨rfl, by simp [parsC, vpNew, loglinear_effect, vpUse]⟩
  · intro sp c e t
    cases e <;> cases t <;>
      exact ⟨rfl, by simp [parsC, vpNew, fixed_effect, vpUse], rfl⟩
  · intro sp c d
    cases d <;>
      exact ⟨rfl, by simp [parsC, vpNew, dose_bolus, vpUse], rfl⟩
  · intro sp c d
    cases d <;>
      exact ⟨rfl, by simp [parsC, vpNew, dose_infusion, mkRule1, vpUse], rfl, rfl⟩
  · intro sp c d ka f
    cases d <;> cases ka <;> cases f <;>
      exact ⟨rfl, by simp [parsC, vpNew, dose_absorbed, mkRule1, vpUse]⟩

/-- Witness for claim C1: the minted clearance Parameter for a numeric
argument is returned in the component set at a concrete input. -/
theorem claim_C1_witness :
    Component.par ⟨mkNm "CL_" "Drug" "CENTRAL" "", 5⟩ ∈
      (clearance (.mono ⟨"Drug"⟩) ⟨"CENTRAL", ⟨"V_CENTRAL", 1⟩⟩ (.num 5)).returned :=
  ((claim_C1_param_reuse_and_naming.2.2.2.2.2.1
      (.mono ⟨"Drug"⟩) ⟨"CENTRAL", ⟨"V_CENTRAL", 1⟩⟩ (.num 5)).2.1)
    (by decide)

/-- Claim C6: every preset template raises the dict KeyError, uncaught,
when the dose route is not a registered DOSING_OPTIONS key, and when the
pd_model dict holds a key that is not a registered PD_MODELS name. -/
theorem claim_C6_unknown_keys :
    (∀ (r : String), dosingLookup r = none →
      ∀ (da vd cl : ℚ) (dp : Option DoseKw) (pdm : Option (List (String × PdKw))),
        one_compartment_model da r dp vd cl pdm = .error (.keyErr r)) ∧
    (∀ (r : String), dosingLookup r = none →
      ∀ (da vc vp k12 k21 cl : ℚ) (dp : Option DoseKw)
        (pdm : Option (List (String × PdKw))),
        two_compartment_model da r dp vc vp k12 k21 cl pdm = .error (.keyErr r)) ∧
    (∀ (r : String), dosingLookup r = none →
      ∀ (da vc vp vdp k12 k21 k13 k31 cl : ℚ) (dp : Option DoseKw)
        (pdm : Option (List (String × PdKw))),
        three_compartment_model da r dp vc vp vdp k12 k21 k13 k31 cl pdm =
          .error (.keyErr r)) ∧
    (∀ (k : String) (kw : PdKw), pdLookup k = none →
      ∀ (da vd cl : ℚ),
        one_compartment_model da "iv-bolus" none vd cl (some [(k, kw)]) =
          .error (.keyErr k)) ∧
    (∀ (k : String) (kw : PdKw), pdLookup k = none →
      ∀ (da vc vp k12 k21 cl : ℚ),
        two_compartment_model da "iv-bolus" none vc vp k12 k21 cl (some [(k, kw)]) =
          .error (.keyErr k)) ∧
    (∀ (k : String) (kw : PdKw), pdLookup k = none →
      ∀ (da vc vp vdp k12 k21 k13 k31 cl : ℚ),
        three_compartment_model da "iv-bolus" none vc vp vdp k12 k21 k13 k31 cl
            (some [(k, kw)]) = .error (.keyErr k)) := by
  refine ⟨?_, ?_, ?_, ?_, ?_, ?_⟩
  · intro r h da vd cl dp pdm
    unfold one_compartment_model
    rw [h]; rfl
  · intro r h da vc vp k12 k21 cl dp pdm
    unfold two_compartment_model
    rw [h]; rfl
  · intro r h da vc vp vdp k12 k21 k13 k31 cl dp pdm
    unfold three_compartment_model
    rw [h]; rfl
  · intro k kw h da vd cl
    unfold one_compartment_model
    by_cases hcl : cl > 0
    · simp only [if_pos hcl, applyPdList, h]
      rfl
    · simp only [if_neg hcl, applyPdList, h]
      rfl
  · intro k kw h da vc vp k12 k21 cl
    unfold two_compartment_model
    by_cases hcl : cl > 0
    · simp only [if_pos hcl, applyPdList, h]
      rfl
    · simp only [if_neg hcl, applyPdList, h]
      rfl
  · intro k kw h da vc vp vdp k12 k21 k13 k31 cl
    unfold three_compartment_model
    by_cases hcl : cl > 0
    · simp only [if_pos hcl, applyPdList, h]
      rfl
    · simp only [if_neg hcl, applyPdList, h]
      rfl

/-- Witness for claim C6: at the concrete unregistered route
intramuscular and the concrete unregistered PD key quadratic, the
one-compartment template returns the KeyError. -/
theorem claim_C6_witness :
    (dosingLookup "intramuscular" = none ∧
      one_compartment_model 100 "intramuscular" none 1 1 none =
        .error (.keyErr "intramuscular")) ∧
    (pdLookup "quadratic" = none ∧
      one_compartment_model 100 "iv-bolus" none 1 1
          (some [("quadratic", ⟨none, none, none, none, none, none, none⟩)]) =
        .error (.keyErr "quadratic")) :=
  ⟨⟨by decide, claim_C6_unknown_keys.1 "intramuscular" (by decide) 100 1 1 none none⟩,
   ⟨by decide, claim_C6_unknown_keys.2.2.2.1 "quadratic"
      ⟨none, none, none, none, none, none, none⟩ (by decide) 100 1 1⟩⟩

/-- Successful registration appends the component to the model. -/
theorem addComponent_ok_comps {m : Model} {c : Component} {m2 : Model}
    (h : addComponent m c = .ok m2) : m2.components = m.components ++ [c] := by
  cases hn : Component.nameOf c with
  | some nm =>
      by_cases hm : nm ∈ m.names
      · simp [addComponent, hn, hm] at h
      · simp [addComponent, hn, hm] at h
        rw [← h]
  | none =>
      cases c with
      | init i =>
          by_cases hm : i.pattern ∈ m.initPatterns
          · simp [addComponent, Component.nameOf, hm] at h
          · simp [addComponent, Component.nameOf, hm] at h
            rw [← h]
      | mono a => simp [Component.nameOf] at hn
      | par a => simp [Component.nameOf] at hn
      | comp a => simp [Component.nameOf] at hn
      | obs a => simp [Component.nameOf] at hn
      | expr a => simp [Component.nameOf] at hn
      | rule a => simp [Component.nameOf] at hn

/-- Names of a model extended by one component. -/
theorem names_append_comp (m : Model) (c : Component) :
    Model.names ⟨m.components ++ [c]⟩ = m.names ++ (Component.nameOf c).toList := by
  simp only [Model.names, List.filterMap_append]
  cases hn : Component.nameOf c <;> simp [List.filterMap_cons, hn]

/-- Registration never removes names. -/
theorem addComponent_ok_subnames {m : Model} {c : Component} {m2 : Model}
    (h : addComponent m c = .ok m2) : m.names ⊆ m2.names := by
  have hc := addComponent_ok_comps h
  have : m2.names = m.names ++ (Component.nameOf c).toList := by
    have : m2 = ⟨m.components ++ [c]⟩ := by
      cases m2
      simpa using hc
    rw [this, names_append_comp]
  rw [this]
  exact List.subset_append_left _ _

/-- A successfully registered named component's name is in the result. -/
theorem addComponent_ok_mem {m : Model} {c : Component} {m2 : Model} {nm : String}
    (h : addComponent m c = .ok m2) (hn : Component.nameOf c = some nm) :
    nm ∈ m2.names := by
  have hc := addComponent_ok_comps h
  have hm2 : m2 = ⟨m.components ++ [c]⟩ := by
    cases m2
    simpa using hc
  rw [hm2, names_append_comp, hn]
  simp

/-- Unfolding equation: registering a cons runs the head then the rest. -/
theorem applyList_cons (m : Model) (c : Component) (rest : List Component) :
    applyList m (c :: rest) = (addComponent m c).bind fun m' => applyList m' rest := rfl

/-- Bind on a successful result. -/
theorem exbind_ok (a : Model) (f : Model → Except PkError Model) :
    (Except.ok a).bind f = f a := rfl

/-- Bind on a failed result. -/
theorem exbind_error (e : PkError) (f : Model → Except PkError Model) :
    (Except.error e : Except PkError Model).bind f = .error e := rfl

/-- Registering a list keeps all earlier names. -/
theorem applyList_ok_subnames :
    ∀ (l : List Component) (m m' : Model), applyList m l = .ok m' → m.names ⊆ m'.names := by
  intro l
  induction l with
  | nil =>
      intro m m' h
      cases h
      exact fun _ hx => hx
  | cons c rest ih =>
      intro m m' h
      rw [applyList_cons] at h
      cases haC : addComponent m c with
      | error e =>
          rw [haC, exbind_error] at h
          exact Except.noConfusion h
      | ok m2 =>
          rw [haC, exbind_ok] at h
          intro x hx
          exact ih m2 m' h (addComponent_ok_subnames haC hx)

/-- Every named component successfully registered ends up in the names. -/
theorem applyList_ok_mem_names :
    ∀ (l : List Component) (m m' : Model), applyList m l = .ok m' →
      ∀ c ∈ l, ∀ nm, Component.nameOf c = some nm → nm ∈ m'.names := by
  intro l
  induction l with
  | nil =>
      intro m m' _ c hc
      exact absurd hc (by simp)
  | cons c0 rest ih =>
      intro m m' h c hc nm hnm
      rw [applyList_cons] at h
      cases haC : addComponent m c0 with
      | error e =>
          rw [haC, exbind_error] at h
          exact Except.noConfusion h
      | ok m2 =>
          rw [haC, exbind_ok] at h
          rcases List.mem_cons.mp hc with rfl | hmem
          · exact applyList_ok_subnames rest m2 m' h (addComponent_ok_mem haC hnm)
          · exact ih m2 m' h c hmem nm hnm

/-- Registration of an appended list runs the parts in sequence. -/
theorem applyList_append :
    ∀ (l1 l2 : List Component) (m : Model),
      applyList m (l1 ++ l2) = (applyList m l1).bind fun m' => applyList m' l2 := by
  intro l1
  induction l1 with
  | nil => intro l2 m; rfl
  | cons c rest ih =>
      intro l2 m
      show applyList m (c :: (rest ++ l2)) = _
      rw [applyList_cons, applyList_cons]
      cases haC : addComponent m c with
      | error e => rfl
      | ok m2 => exact ih l2 m2

/-- A failing registration of a non-initial component is a duplicate-name
error. -/
theorem addComponent_error_shape {m : Model} {c : Component} {e : PkError}
    (h : addComponent m c = .error e) (hc : ∀ i, c ≠ .init i) :
    ∃ nm, e = .dupName nm := by
  cases hn : Component.nameOf c with
  | some nm =>
      by_cases hm : nm ∈ m.names
      · simp [addComponent, hn, hm] at h
        exact ⟨nm, h.symm⟩
      · simp [addComponent, hn, hm] at h
  | none =>
      cases c with
      | init i => exact absurd rfl (hc i)
      | mono m0 => simp [Component.nameOf] at hn
      | par p => simp [Component.nameOf] at hn
      | comp x => simp [Component.nameOf] at hn
      | obs o => simp [Component.nameOf] at hn
      | expr e0 => simp [Component.nameOf] at hn
      | rule r => simp [Component.nameOf] at hn

/-- Registering an initial-free list holding a component whose name is
already taken fails with a duplicate-name error. -/
theorem applyList_dup :
    ∀ (l : List Component) (m : Model), (∀ i, Component.init i ∉ l) →
      (∃ c ∈ l, ∃ nm, Component.nameOf c = some nm ∧ nm ∈ m.names) →
      ∃ nm', applyList m l = .error (.dupName nm') := by
  intro l
  induction l with
  | nil =>
      intro m _ hdup
      rcases hdup with ⟨c, hc, _⟩
      exact absurd hc (by simp)
  | cons c0 rest ih =>
      intro m hinit hdup
      rw [applyList_cons]
      cases haC : addComponent m c0 with
      | error e =>
          rcases addComponent_error_shape haC
              (fun i hi => hinit i (by rw [hi]; exact List.mem_cons_self _ _)) with ⟨nm, rfl⟩
          exact ⟨nm, by rw [exbind_error]⟩
      | ok m2 =>
          rcases hdup with ⟨c, hc, nm, hnm, hmem⟩
          rcases List.mem_cons.mp hc with rfl | hrest
          · exfalso
            simp [addComponent, hnm, hmem] at haC
          · rcases ih m2 (fun i hi => hinit i (List.mem_cons_of_mem _ hi))
                ⟨c, hrest, nm, hnm, addComponent_ok_subnames haC hmem⟩ with ⟨nm', hres⟩
            exact ⟨nm', by rw [exbind_ok, hres]⟩

/-- A duplicate-named element in the initial-free front part fails the
whole registration with a duplicate-name error. -/
theorem applyList_dup_head (lA lB : List Component) (m : Model)
    (hinit : ∀ i, Component.init i ∉ lA)
    (hdup : ∃ c ∈ lA, ∃ nm, Component.nameOf c = some nm ∧ nm ∈ m.names) :
    ∃ nm', applyList m (lA ++ lB) = .error (.dupName nm') := by
  rcases applyList_dup lA m hinit hdup with ⟨nm', h⟩
  exact ⟨nm', by rw [applyList_append, h]; rfl⟩

/-- No initial condition sits among parameter components. -/
theorem init_notin_parsC (i : InitialC) (l : List Parameter) :
    Component.init i ∉ parsC l := by
  intro h
  rcases List.mem_map.mp h with ⟨p, _, hp⟩
  exact Component.noConfusion hp

/-- Claim C10: dose_absorbed names the precursor's initial-amount
Expression with the fixed string precursor_0 for every input, and after
any successful dose_absorbed call, a second call (any species,
compartment and arguments) fails with the framework's duplicate-name
error. -/
theorem claim_C10_precursor_collision :
    (∀ (sp : Species) (c : Compartment) (d ka f : VP),
      (initsOf (dose_absorbed sp c d ka f).created).map (fun i => i.amount.name) =
        ["precursor_0"]) ∧
    (∀ (mo mo' : Model) (sp1 : Species) (c1 : Compartment) (d1 ka1 f1 : VP)
      (sp2 : Species) (c2 : Compartment) (d2 ka2 f2 : VP),
      applyOut mo (dose_absorbed sp1 c1 d1 ka1 f1) = .ok mo' →
      ∃ nm, applyOut mo' (dose_absorbed sp2 c2 d2 ka2 f2) = .error (.dupName nm)) := by
  constructor
  · intro sp c d ka f
    cases d <;> cases ka <;> cases f <;> rfl
  · intro mo mo' sp1 c1 d1 ka1 f1 sp2 c2 d2 ka2 f2 h1
    have hpre1 : Component.expr
        ⟨"precursor_0",
         .mul (.exprR (mkNm "expr_" sp1.baseName c1.name "_dose"))
           (.par (vpUse (mkNm "F_" sp1.baseName c1.name "") f1))⟩ ∈
        (dose_absorbed sp1 c1 d1 ka1 f1).created := by
      simp [dose_absorbed]
    have hmem : "precursor_0" ∈ mo'.names :=
      applyList_ok_mem_names _ _ _ h1 _ hpre1 _ rfl
    have hsplit : (dose_absorbed sp2 c2 d2 ka2 f2).created =
        ([Component.mono ⟨mkNm "" sp2.baseName c2.name "_precursor"⟩] ++
          (parsC (vpNew (mkNm "dose_" sp2.baseName c2.name "") d2) ++
            [Component.expr ⟨mkNm "expr_" sp2.baseName c2.name "_dose",
              .div (.par (vpUse (mkNm "dose_" sp2.baseName c2.name "") d2)) (.par c2.size)⟩]) ++
          parsC (vpNew (mkNm "ka_" sp2.baseName c2.name "") ka2) ++
          parsC (vpNew (mkNm "F_" sp2.baseName c2.name "") f2) ++
          [Component.expr ⟨"precursor_0",
            .mul (.exprR (mkNm "expr_" sp2.baseName c2.name "_dose"))
              (.par (vpUse (mkNm "F_" sp2.baseName c2.name "") f2))⟩]) ++
        ([Component.init ⟨⟨⟨mkNm "" sp2.baseName c2.name "_precursor"⟩, c2⟩,
            ⟨"precursor_0",
             .mul (.exprR (mkNm "expr_" sp2.baseName c2.name "_dose"))
               (.par (vpUse (mkNm "F_" sp2.baseName c2.name "") f2))⟩⟩] ++
          (mkRule1 (mkNm "absorb_" sp2.baseName c2.name "")
            (mkNm "absorb_" sp2.baseName c2.name "_ka")
            ⟨some ⟨⟨mkNm "" sp2.baseName c2.name "_precursor"⟩, c2⟩,
             some (check_for_monomer sp2 c2), false⟩
            (.par (vpUse (mkNm "ka_" sp2.baseName c2.name "") ka2))).created) := by
      simp [dose_absorbed]
    show ∃ nm, applyList mo' (dose_absorbed sp2 c2 d2 ka2 f2).created =
      Except.error (.dupName nm)
    rw [hsplit]
    apply applyList_dup_head
    · intro i hi
      simp [parsC] at hi
    · exact ⟨Component.expr ⟨"precursor_0",
        .mul (.exprR (mkNm "expr_" sp2.baseName c2.name "_dose"))
          (.par (vpUse (mkNm "F_" sp2.baseName c2.name "") f2))⟩,
        by simp, "precursor_0", rfl, hmem⟩

/-- The model after one successful concrete dose_absorbed call on an
empty model. -/
def c10FirstOk : Model :=
  match applyOut ⟨[]⟩ (dose_absorbed (.mono ⟨"Drug"⟩) ⟨"CENTRAL", ⟨"V_CENTRAL", 1⟩⟩
      (.num 100) (.num 1) (.num 1)) with
  | .ok m => m
  | .error _ => ⟨[]⟩

/-- Witness for claim C10: a concrete first dose_absorbed call succeeds
and a concrete second call for a different species and compartment fails
with a duplicate-name error. -/
theorem claim_C10_witness :
    applyOut ⟨[]⟩ (dose_absorbed (.mono ⟨"Drug"⟩) ⟨"CENTRAL", ⟨"V_CENTRAL", 1⟩⟩
        (.num 100) (.num 1) (.num 1)) = .ok c10FirstOk ∧
    ∃ nm, applyOut c10FirstOk (dose_absorbed (.mono ⟨"Aspirin"⟩)
        ⟨"PERIPHERAL", ⟨"V_PERIPHERAL", 1⟩⟩ (.num 50) (.num 1) (.num 1)) =
      .error (.dupName nm) :=
  ⟨by decide,
   claim_C10_precursor_collision.2 ⟨[]⟩ c10FirstOk (.mono ⟨"Drug"⟩)
     ⟨"CENTRAL", ⟨"V_CENTRAL", 1⟩⟩ (.num 100) (.num 1) (.num 1) (.mono ⟨"Aspirin"⟩)
     ⟨"PERIPHERAL", ⟨"V_PERIPHERAL", 1⟩⟩ (.num 50) (.num 1) (.num 1) (by decide)⟩

/-- Two appends agreeing force the front parts into each other. -/
theorem appendRelFront {α : Type} (a b c d : List α) (h : a ++ b = c ++ d) :
    a <+: c ∨ c <+: a := by
  rcases List.append_eq_append_iff.mp h with ⟨a', ha, _⟩ | ⟨c', hc, _⟩
  · exact Or.inl ⟨a', ha.symm⟩
  · exact Or.inr ⟨c', hc.symm⟩

/-- Two appends agreeing force the back parts into each other. -/
theorem appendRelBack {α : Type} (a b c d : List α) (h : a ++ b = c ++ d) :
    b <:+ d ∨ d <:+ b := by
  have h' : b.reverse ++ a.reverse = d.reverse ++ c.reverse := by
    rw [← List.reverse_append, ← List.reverse_append, h]
  rcases appendRelFront _ _ _ _ h' with hp | hp
  · exact Or.inl (List.reverse_prefix.mp hp)
  · exact Or.inr (List.reverse_prefix.mp hp)

/-- Character data of a synthesized name. -/
theorem mkNm_data (p m c s : String) :
    (mkNm p m c s).data =
      p.data ++ (m.data ++ ("_".data ++ (c.data ++ s.data))) := by
  simp [mkNm, String.data_append, List.append_assoc]

/-- Names with incomparable role texts never coincide. -/
theorem mkNm_ne_roles (p1 s1 p2 s2 m c1 c2 : String)
    (h1 : ¬ p1.data <+: p2.data) (h2 : ¬ p2.data <+: p1.data) :
    mkNm p1 m c1 s1 ≠ mkNm p2 m c2 s2 := by
  intro h
  have hd := congrArg String.data h
  rw [mkNm_data, mkNm_data] at hd
  rcases appendRelFront _ _ _ _ hd with hp | hp
  · exact h1 hp
  · exact h2 hp

/-- Names with the same role text and compartments that are not prefixes
of one another never coincide. -/
theorem mkNm_ne_comp (p m c1 c2 s1 s2 : String)
    (h1 : ¬ c1.data <+: c2.data) (h2 : ¬ c2.data <+: c1.data) :
    mkNm p m c1 s1 ≠ mkNm p m c2 s2 := by
  intro h
  have hd := congrArg String.data h
  rw [mkNm_data, mkNm_data] at hd
  have hd4 := List.append_cancel_left (List.append_cancel_left
    (List.append_cancel_left hd))
  rcases appendRelFront _ _ _ _ hd4 with hp | hp
  · exact h1 hp
  · exact h2 hp

/-- A name whose role text extends the other's never coincides with it
when the compartments are not suffixes of one another. -/
theorem mkNm_ne_shift (p q m c1 c2 : String)
    (h1 : ¬ c1.data <:+ c2.data) (h2 : ¬ c2.data <:+ c1.data) :
    mkNm p m c1 "" ≠ mkNm (p ++ q) m c2 "" := by
  intro h
  have hd := congrArg String.data h
  rw [mkNm_data, mkNm_data] at hd
  rw [String.data_append, List.append_assoc] at hd
  have hd2 := List.append_cancel_left hd
  have hd3 : (m.data ++ "_".data) ++ c1.data =
      ((q.data ++ m.data) ++ "_".data) ++ c2.data := by
    have hemp : ("" : String).data = ([] : List Char) := rfl
    rw [hemp, List.append_nil, List.append_nil] at hd2
    simpa [List.append_assoc] using hd2
  rcases appendRelBack _ _ _ _ hd3 with hp | hp
  · exact h1 hp
  · exact h2 hp

/-- The two colliding Emax role texts never coincide when the
compartments are not suffixes of one another. -/
theorem emax_pair_ne (m c1 c2 : String)
    (h1 : ¬ c1.data <:+ c2.data) (h2 : ¬ c2.data <:+ c1.data) :
    mkNm "Emax_" m c1 "" ≠ mkNm "Emax_expr_" m c2 "" := by
  rw [show ("Emax_expr_" : String) = "Emax_" ++ "expr_" by decide]
  exact mkNm_ne_shift _ _ _ _ _ h1 h2

/-- The compartment name is an infix of every synthesized name. -/
theorem mkNm_infix (p m c s : String) : c.data <:+: (mkNm p m c s).data :=
  ⟨p.data ++ (m.data ++ "_".data), s.data, by
    rw [mkNm_data]
    simp [List.append_assoc]⟩

/-- Claim C4 as stated is false: with the distinct compartments CENTRAL
and CENTRAL_k, the two component sets from eliminate share the name
eliminate_Drug_CENTRAL_k (rule name of one call, parameter name of the
other). -/
theorem claim_C4_counterexample :
    ("CENTRAL" : String) ≠ "CENTRAL_k" ∧
    ¬ List.Disjoint
      (namesOf (eliminate (.mono ⟨"Drug"⟩) ⟨"CENTRAL", ⟨"V1", 1⟩⟩ (.num 1)).returned)
      (namesOf (eliminate (.mono ⟨"Drug"⟩) ⟨"CENTRAL_k", ⟨"V2", 1⟩⟩ (.num 1)).returned) := by
  refine ⟨by decide, ?_⟩
  intro h
  have h1 : mkNm "eliminate_" "Drug" "CENTRAL" "_k" ∈
      namesOf (eliminate (.mono ⟨"Drug"⟩) ⟨"CENTRAL", ⟨"V1", 1⟩⟩ (.num 1)).returned := by
    decide
  have h2 : mkNm "eliminate_" "Drug" "CENTRAL" "_k" ∈
      namesOf (eliminate (.mono ⟨"Drug"⟩) ⟨"CENTRAL_k", ⟨"V2", 1⟩⟩ (.num 1)).returned := by
    decide
  exact h h1 h2

/-- Disjointness of eliminate name sets for numeric arguments. -/
theorem disjMax_eliminate (sp : Species) (n1 n2 : String) (sz1 sz2 : Parameter)
    (hp1 : ¬ n1.data <+: n2.data) (hp2 : ¬ n2.data <+: n1.data) :
    List.Disjoint (namesOf (eliminate sp ⟨n1, sz1⟩ (.num 0)).returned)
      (namesOf (eliminate sp ⟨n2, sz2⟩ (.num 0)).returned) := by
  have e1 : namesOf (eliminate sp ⟨n1, sz1⟩ (.num 0)).returned =
      [mkNm "eliminate_" sp.baseName n1 "", mkNm "eliminate_" sp.baseName n1 "_k"] := rfl
  have e2 : namesOf (eliminate sp ⟨n2, sz2⟩ (.num 0)).returned =
      [mkNm "eliminate_" sp.baseName n2 "", mkNm "eliminate_" sp.baseName n2 "_k"] := rfl
  rw [e1, e2]
  intro x hx hy
  simp only [List.mem_cons, List.not_mem_nil, or_false] at hx hy
  rcases hx with rfl | rfl <;> rcases hy with h | h <;>
    exact absurd h (mkNm_ne_comp _ _ _ _ _ _ hp1 hp2)

/-- Every eliminate name set is contained in the numeric-argument one. -/
theorem namesSub_eliminate (sp : Species) (c : Compartment) (kel : VP) :
    namesOf (eliminate sp c kel).returned ⊆
      namesOf (eliminate sp c (.num 0)).returned := by
  cases kel with
  | num q => intro x hx; exact hx
  | par p =>
      intro x hx
      simp [namesOf, eliminate, mkRule1, VP.toRate, Component.nameOf,
        List.filterMap_cons] at hx ⊢
      tauto

/-- Disjointness is preserved by shrinking both sides. -/
theorem disjoint_mono {α : Type} {l1 l2 l1' l2' : List α}
    (s1 : l1' ⊆ l1) (s2 : l2' ⊆ l2) (h : List.Disjoint l1 l2) :
    List.Disjoint l1' l2' :=
  fun _ hx hy => h (s1 hx) (s2 hy)

/-- Disjointness of clearance name sets for numeric arguments. -/
theorem disjMax_clearance (sp : Species) (n1 n2 : String) (sz1 sz2 : Parameter)
    (hp1 : ¬ n1.data <+: n2.data) (hp2 : ¬ n2.data <+: n1.data) :
    List.Disjoint (namesOf (clearance sp ⟨n1, sz1⟩ (.num 0)).returned)
      (namesOf (clearance sp ⟨n2, sz2⟩ (.num 0)).returned) := by
  have e1 : namesOf (clearance sp ⟨n1, sz1⟩ (.num 0)).returned =
      [mkNm "clearance_" sp.baseName n1 "", mkNm "k_CL_expr_" sp.baseName n1 "",
       mkNm "CL_" sp.baseName n1 ""] := rfl
  have e2 : namesOf (clearance sp ⟨n2, sz2⟩ (.num 0)).returned =
      [mkNm "clearance_" sp.baseName n2 "", mkNm "k_CL_expr_" sp.baseName n2 "",
       mkNm "CL_" sp.baseName n2 ""] := rfl
  rw [e1, e2]
  intro x hx hy
  simp only [List.mem_cons, List.not_mem_nil, or_false] at hx hy
  rcases hx with rfl | rfl | rfl <;> rcases hy with h | h | h <;>
    first
      | exact absurd h (mkNm_ne_comp _ _ _ _ _ _ hp1 hp2)
      | exact absurd h (mkNm_ne_roles _ _ _ _ _ _ _ (by decide) (by decide))

/-- Every clearance name set is contained in the numeric-argument one. -/
theorem namesSub_clearance (sp : Species) (c : Compartment) (cl : VP) :
    namesOf (clearance sp c cl).returned ⊆
      namesOf (clearance sp c (.num 0)).returned := by
  cases cl <;>
    · intro x hx
      simp [namesOf, clearance, mkRule1, parsC, vpNew, Component.nameOf,
        List.filterMap_cons] at hx ⊢
      tauto

/-- Disjointness of eliminate_mm name sets for numeric arguments. -/
theorem disjMax_eliminate_mm (sp : Species) (n1 n2 : String) (sz1 sz2 : Parameter)
    (hp1 : ¬ n1.data <+: n2.data) (hp2 : ¬ n2.data <+: n1.data) :
    List.Disjoint (namesOf (eliminate_mm sp ⟨n1, sz1⟩ (.num 0) (.num 0)).returned)
      (namesOf (eliminate_mm sp ⟨n2, sz2⟩ (.num 0) (.num 0)).returned) := by
  have e1 : namesOf (eliminate_mm sp ⟨n1, sz1⟩ (.num 0) (.num 0)).returned =
      [mkNm "eliminate_mm_" sp.baseName n1 "", mkNm "Vmax_" sp.baseName n1 "",
       mkNm "Km_" sp.baseName n1 "", mkNm "_obs_expr_" sp.baseName n1 "",
       mkNm "k_expr_" sp.baseName n1 ""] := rfl
  have e2 : namesOf (eliminate_mm sp ⟨n2, sz2⟩ (.num 0) (.num 0)).returned =
      [mkNm "eliminate_mm_" sp.baseName n2 "", mkNm "Vmax_" sp.baseName n2 "",
       mkNm "Km_" sp.baseName n2 "", mkNm "_obs_expr_" sp.baseName n2 "",
       mkNm "k_expr_" sp.baseName n2 ""] := rfl
  rw [e1, e2]
  intro x hx hy
  simp only [List.mem_cons, List.not_mem_nil, or_false] at hx hy
  rcases hx with rfl | rfl | rfl | rfl | rfl <;> rcases hy with h | h | h | h | h <;>
    first
      | exact absurd h (mkNm_ne_comp _ _ _ _ _ _ hp1 hp2)
      | exact absurd h (mkNm_ne_roles _ _ _ _ _ _ _ (by decide) (by decide))

/-- Every eliminate_mm name set is contained in the numeric-argument one. -/
theorem namesSub_eliminate_mm (sp : Species) (c : Compartment) (vmax km : VP) :
    namesOf (eliminate_mm sp c vmax km).returned ⊆
      namesOf (eliminate_mm sp c (.num 0) (.num 0)).returned := by
  cases vmax <;> cases km <;>
    · intro x hx
      simp [namesOf, eliminate_mm, mkRule1, parsC, vpNew, Component.nameOf,
        List.filterMap_cons] at hx ⊢
      tauto

/-- Disjointness of emax name sets for numeric arguments. -/
theorem disjMax_emax (sp : Species) (n1 n2 : String) (sz1 sz2 : Parameter)
    (hp1 : ¬ n1.data <+: n2.data) (hp2 : ¬ n2.data <+: n1.data)
    (hs1 : ¬ n1.data <:+ n2.data) (hs2 : ¬ n2.data <:+ n1.data) :
    List.Disjoint (namesOf (emax sp ⟨n1, sz1⟩ (.num 0) (.num 0)).returned)
      (namesOf (emax sp ⟨n2, sz2⟩ (.num 0) (.num 0)).returned) := by
  have e1 : namesOf (emax sp ⟨n1, sz1⟩ (.num 0) (.num 0)).returned =
      [mkNm "_obs_emax_expr_" sp.baseName n1 "", mkNm "Emax_expr_" sp.baseName n1 "",
       mkNm "Emax_" sp.baseName n1 "", mkNm "EC50_" sp.baseName n1 ""] := rfl
  have e2 : namesOf (emax sp ⟨n2, sz2⟩ (.num 0) (.num 0)).returned =
      [mkNm "_obs_emax_expr_" sp.baseName n2 "", mkNm "Emax_expr_" sp.baseName n2 "",
       mkNm "Emax_" sp.baseName n2 "", mkNm "EC50_" sp.baseName n2 ""] := rfl
  rw [e1, e2]
  intro x hx hy
  simp only [List.mem_cons, List.not_mem_nil, or_false] at hx hy
  rcases hx with rfl | rfl | rfl | rfl <;> rcases hy with h | h | h | h <;>
    first
      | exact absurd h (mkNm_ne_comp _ _ _ _ _ _ hp1 hp2)
      | exact absurd h (mkNm_ne_roles _ _ _ _ _ _ _ (by decide) (by decide))
      | exact absurd h (emax_pair_ne _ _ _ hs1 hs2)
      | exact absurd h.symm (emax_pair_ne _ _ _ hs2 hs1)

/-- Every emax name set is contained in the numeric-argument one. -/
theorem namesSub_emax (sp : Species) (c : Compartment) (e e50 : VP) :
    namesOf (emax sp c e e50).returned ⊆
      namesOf (emax sp c (.num 0) (.num 0)).returned := by
  cases e <;> cases e50 <;>
    · intro x hx
      simp [namesOf, emax, parsC, vpNew, Component.nameOf,
        List.filterMap_cons] at hx ⊢
      tauto

/-- Disjointness of sigmoidal_emax name sets for numeric arguments. -/
theorem disjMax_sigmoidal (sp : Species) (n1 n2 : String) (sz1 sz2 : Parameter)
    (hp1 : ¬ n1.data <+: n2.data) (hp2 : ¬ n2.data <+: n1.data)
    (hs1 : ¬ n1.data <:+ n2.data) (hs2 : ¬ n2.data <:+ n1.data) :
    List.Disjoint
      (namesOf (sigmoidal_emax sp ⟨n1, sz1⟩ (.num 0) (.num 0) (.num 0)).returned)
      (namesOf (sigmoidal_emax sp ⟨n2, sz2⟩ (.num 0) (.num 0) (.num 0)).returned) := by
  have e1 : namesOf (sigmoidal_emax sp ⟨n1, sz1⟩ (.num 0) (.num 0) (.num 0)).returned =
      [mkNm "_obs_emax_expr_" sp.baseName n1 "", mkNm "Emax_expr_" sp.baseName n1 "",
       mkNm "Emax_" sp.baseName n1 "", mkNm "EC50_" sp.baseName n1 "",
       mkNm "n_" sp.baseName n1 ""] := rfl
  have e2 : namesOf (sigmoidal_emax sp ⟨n2, sz2⟩ (.num 0) (.num 0) (.num 0)).returned =
      [mkNm "_obs_emax_expr_" sp.baseName n2 "", mkNm "Emax_expr_" sp.baseName n2 "",
       mkNm "Emax_" sp.baseName n2 "", mkNm "EC50_" sp.baseName n2 "",
       mkNm "n_" sp.baseName n2 ""] := rfl
  rw [e1, e2]
  intro x hx hy
  simp only [List.mem_cons, List.not_mem_nil, or_false] at hx hy
  rcases hx with rfl | rfl | rfl | rfl | rfl <;> rcases hy with h | h | h | h | h <;>
    first
      | exact absurd h (mkNm_ne_comp _ _ _ _ _ _ hp1 hp2)
      | exact absurd h (mkNm_ne_roles _ _ _ _ _ _ _ (by decide) (by decide))
      | exact absurd h (emax_pair_ne _ _ _ hs1 hs2)
      | exact absurd h.symm (emax_pair_ne _ _ _ hs2 hs1)

/-- Every sigmoidal_emax name set is contained in the numeric-argument one. -/
theorem namesSub_sigmoidal (sp : Species) (c : Compartment) (e e50 n : VP) :
    namesOf (sigmoidal_emax sp c e e50 n).returned ⊆
      namesOf (sigmoidal_emax sp c (.num 0) (.num 0) (.num 0)).returned := by
  cases e <;> cases e50 <;> cases n <;>
    · intro x hx
      simp [namesOf, sigmoidal_emax, parsC, vpNew, Component.nameOf,
        List.filterMap_cons] at hx ⊢
      tauto

/-- Disjointness of linear_effect name sets for numeric arguments. -/
theorem disjMax_linear (sp : Species) (n1 n2 : String) (sz1 sz2 : Parameter)
    (hp1 : ¬ n1.data <+: n2.data) (hp2 : ¬ n2.data <+: n1.data) :
    List.Disjoint (namesOf (linear_effect sp ⟨n1, sz1⟩ (.num 0) (.num 0)).returned)
      (namesOf (linear_effect sp ⟨n2, sz2⟩ (.num 0) (.num 0)).returned) := by
  have e1 : namesOf (linear_effect sp ⟨n1, sz1⟩ (.num 0) (.num 0)).returned =
      [mkNm "_obs_lineffect_expr_" sp.baseName n1 "",
       mkNm "LinearEffect_expr_" sp.baseName n1 "",
       mkNm "LinEffect_Slope_" sp.baseName n1 "",
       mkNm "LinEffect_Intercept_" sp.baseName n1 ""] := rfl
  have e2 : namesOf (linear_effect sp ⟨n2, sz2⟩ (.num 0) (.num 0)).returned =
      [mkNm "_obs_lineffect_expr_" sp.baseName n2 "",
       mkNm "LinearEffect_expr_" sp.baseName n2 "",
       mkNm "LinEffect_Slope_" sp.baseName n2 "",
       mkNm "LinEffect_Intercept_" sp.baseName n2 ""] := rfl
  rw [e1, e2]
  intro x hx hy
  simp only [List.mem_cons, List.not_mem_nil, or_false] at hx hy
  rcases hx with rfl | rfl | rfl | rfl <;> rcases hy with h | h | h | h <;>
    first
      | exact absurd h (mkNm_ne_comp _ _ _ _ _ _ hp1 hp2)
      | exact absurd h (mkNm_ne_roles _ _ _ _ _ _ _ (by decide) (by decide))

/-- Every linear_effect name set is contained in the numeric-argument one. -/
theorem namesSub_linear (sp : Species) (c : Compartment) (s i : VP) :
    namesOf (linear_effect sp c s i).returned ⊆
      namesOf (linear_effect sp c (.num 0) (.num 0)).returned := by
  cases s <;> cases i <;>
    · intro x hx
      simp [namesOf, linear_effect, parsC, vpNew, Component.nameOf,
        List.filterMap_cons] at hx ⊢
      tauto

/-- Disjointness of loglinear_effect name sets for numeric arguments. -/
theorem disjMax_loglinear (sp : Species) (n1 n2 : String) (sz1 sz2 : Parameter)
    (hp1 : ¬ n1.data <+: n2.data) (hp2 : ¬ n2.data <+: n1.data) :
    List.Disjoint
      (namesOf (loglinear_effect sp ⟨n1, sz1⟩ (.num 0) (.num 0) none).returned)
      (namesOf (loglinear_effect sp ⟨n2, sz2⟩ (.num 0) (.num 0) none).returned) := by
  have e1 : namesOf (loglinear_effect sp ⟨n1, sz1⟩ (.num 0) (.num 0) none).returned =
      [mkNm "_obs_loglinearffect_expr_" sp.baseName n1 "",
       mkNm "LogLinearEffect_expr_" sp.baseName n1 "",
       mkNm "LogLinEffect_Slope_" sp.baseName n1 "",
       mkNm "LogLinEffect_Intercept_" sp.baseName n1 ""] := rfl
  have e2 : namesOf (loglinear_effect sp ⟨n2, sz2⟩ (.num 0) (.num 0) none).returned =
      [mkNm "_obs_loglinearffect_expr_" sp.baseName n2 "",
       mkNm "LogLinearEffect_expr_" sp.baseName n2 "",
       mkNm "LogLinEffect_Slope_" sp.baseName n2 "",
       mkNm "LogLinEffect_Intercept_" sp.baseName n2 ""] := rfl
  rw [e1, e2]
  intro x hx hy
  simp only [List.mem_cons, List.not_mem_nil, or_false] at hx hy
  rcases hx with rfl | rfl | rfl | rfl <;> rcases hy with h | h | h | h <;>
    first
      | exact absurd h (mkNm_ne_comp _ _ _ _ _ _ hp1 hp2)
      | exact absurd h (mkNm_ne_roles _ _ _ _ _ _ _ (by decide) (by decide))

/-- Every loglinear_effect name set is contained in the numeric-argument
natural-log one. -/
theorem namesSub_loglinear (sp : Species) (c : Compartment) (s i : VP)
    (base : Option ℚ) :
    namesOf (loglinear_effect sp c s i base).returned ⊆
      namesOf (loglinear_effect sp c (.num 0) (.num 0) none).returned := by
  cases s <;> cases i <;> cases base <;>
    · intro x hx
      simp [namesOf, loglinear_effect, parsC, vpNew, Component.nameOf,
        List.filterMap_cons] at hx ⊢
      tauto

/-- Disjointness of fixed_effect name sets for numeric arguments. -/
theorem disjMax_fixed (sp : Species) (n1 n2 : String) (sz1 sz2 : Parameter)
    (hp1 : ¬ n1.data <+: n2.data) (hp2 : ¬ n2.data <+: n1.data) :
    List.Disjoint (namesOf (fixed_effect sp ⟨n1, sz1⟩ (.num 0) (.num 0)).returned)
      (namesOf (fixed_effect sp ⟨n2, sz2⟩ (.num 0) (.num 0)).returned) := by
  have e1 : namesOf (fixed_effect sp ⟨n1, sz1⟩ (.num 0) (.num 0)).returned =
      [mkNm "_obs_fixedeffect_expr_" sp.baseName n1 "",
       mkNm "FixedEffect_expr_" sp.baseName n1 "",
       mkNm "Efixed_" sp.baseName n1 "",
       mkNm "Cthreshold_" sp.baseName n1 ""] := rfl
  have e2 : namesOf (fixed_effect sp ⟨n2, sz2⟩ (.num 0) (.num 0)).returned =
      [mkNm "_obs_fixedeffect_expr_" sp.baseName n2 "",
       mkNm "FixedEffect_expr_" sp.baseName n2 "",
       mkNm "Efixed_" sp.baseName n2 "",
       mkNm "Cthreshold_" sp.baseName n2 ""] := rfl
  rw [e1, e2]
  intro x hx hy
  simp only [List.mem_cons, List.not_mem_nil, or_false] at hx hy
  rcases hx with rfl | rfl | rfl | rfl <;> rcases hy with h | h | h | h <;>
    first
      | exact absurd h (mkNm_ne_comp _ _ _ _ _ _ hp1 hp2)
      | exact absurd h (mkNm_ne_roles _ _ _ _ _ _ _ (by decide) (by decide))

/-- Every fixed_effect name set is contained in the numeric-argument one. -/
theorem namesSub_fixed (sp : Species) (c : Compartment) (e t : VP) :
    namesOf (fixed_effect sp c e t).returned ⊆
      namesOf (fixed_effect sp c (.num 0) (.num 0)).returned := by
  cases e <;> cases t <;>
    · intro x hx
      simp [namesOf, fixed_effect, parsC, vpNew, Component.nameOf,
        List.filterMap_cons] at hx ⊢
      tauto

/-- Claim C4 amended: for one species and two compartments neither of
whose names is a prefix or a suffix of the other's (in particular the
names are distinct), any single elimination, clearance or PD constructor
called once per compartment yields component sets with no name in
common; and every synthesized identifier contains the compartment name. -/
theorem claim_C4_amended (sp : Species) (n1 n2 : String) (sz1 sz2 : Parameter)
    (hp1 : ¬ n1.data <+: n2.data) (hp2 : ¬ n2.data <+: n1.data)
    (hs1 : ¬ n1.data <:+ n2.data) (hs2 : ¬ n2.data <:+ n1.data) :
    (∀ kel kel', List.Disjoint (namesOf (eliminate sp ⟨n1, sz1⟩ kel).returned)
      (namesOf (eliminate sp ⟨n2, sz2⟩ kel').returned)) ∧
    (∀ v k v' k', List.Disjoint (namesOf (eliminate_mm sp ⟨n1, sz1⟩ v k).returned)
      (namesOf (eliminate_mm sp ⟨n2, sz2⟩ v' k').returned)) ∧
    (∀ cl cl', List.Disjoint (namesOf (clearance sp ⟨n1, sz1⟩ cl).returned)
      (namesOf (clearance sp ⟨n2, sz2⟩ cl').returned)) ∧
    (∀ e f e' f', List.Disjoint (namesOf (emax sp ⟨n1, sz1⟩ e f).returned)
      (namesOf (emax sp ⟨n2, sz2⟩ e' f').returned)) ∧
    (∀ e f g e' f' g',
      List.Disjoint (namesOf (sigmoidal_emax sp ⟨n1, sz1⟩ e f g).returned)
        (namesOf (sigmoidal_emax sp ⟨n2, sz2⟩ e' f' g').returned)) ∧
    (∀ s i s' i', List.Disjoint (namesOf (linear_effect sp ⟨n1, sz1⟩ s i).returned)
      (namesOf (linear_effect sp ⟨n2, sz2⟩ s' i').returned)) ∧
    (∀ s i b s' i' b',
      List.Disjoint (namesOf (loglinear_effect sp ⟨n1, sz1⟩ s i b).returned)
        (namesOf (loglinear_effect sp ⟨n2, sz2⟩ s' i' b').returned)) ∧
    (∀ e t e' t', List.Disjoint (namesOf (fixed_effect sp ⟨n1, sz1⟩ e t).returned)
      (namesOf (fixed_effect sp ⟨n2, sz2⟩ e' t').returned)) ∧
    (∀ (c : Compartment) (kel : VP),
      ∀ x ∈ namesOf (eliminate sp c kel).returned, c.name.data <:+: x.data) ∧
    (∀ (c : Compartment) (v k : VP),
      ∀ x ∈ namesOf (eliminate_mm sp c v k).returned, c.name.data <:+: x.data) ∧
    (∀ (c : Compartment) (cl : VP),
      ∀ x ∈ namesOf (clearance sp c cl).returned, c.name.data <:+: x.data) ∧
    (∀ (c : Compartment) (e f : VP),
      ∀ x ∈ namesOf (emax sp c e f).returned, c.name.data <:+: x.data) ∧
    (∀ (c : Compartment) (e f g : VP),
      ∀ x ∈ namesOf (sigmoidal_emax sp c e f g).returned, c.name.data <:+: x.data) ∧
    (∀ (c : Compartment) (s i : VP),
      ∀ x ∈ namesOf (linear_effect sp c s i).returned, c.name.data <:+: x.data) ∧
    (∀ (c : Compartment) (s i : VP) (b : Option ℚ),
      ∀ x ∈ namesOf (loglinear_effect sp c s i b).returned, c.name.data <:+: x.data) ∧
    (∀ (c : Compartment) (e t : VP),
      ∀ x ∈ namesOf (fixed_effect sp c e t).returned, c.name.data <:+: x.data) := by
  refine ⟨?_, ?_, ?_, ?_, ?_, ?_, ?_, ?_, ?_, ?_, ?_, ?_, ?_, ?_, ?_, ?_⟩
  · intro kel kel'
    exact disjoint_mono (namesSub_eliminate sp _ kel) (namesSub_eliminate sp _ kel')
      (disjMax_eliminate sp n1 n2 sz1 sz2 hp1 hp2)
  · intro v k v' k'
    exact disjoint_mono (namesSub_eliminate_mm sp _ v k) (namesSub_eliminate_mm sp _ v' k')
      (disjMax_eliminate_mm sp n1 n2 sz1 sz2 hp1 hp2)
  · intro cl cl'
    exact disjoint_mono (namesSub_clearance sp _ cl) (namesSub_clearance sp _ cl')
      (disjMax_clearance sp n1 n2 sz1 sz2 hp1 hp2)
  · intro e f e' f'
    exact disjoint_mono (namesSub_emax sp _ e f) (namesSub_emax sp _ e' f')
      (disjMax_emax sp n1 n2 sz1 sz2 hp1 hp2 hs1 hs2)
  · intro e f g e' f' g'
    exact disjoint_mono (namesSub_sigmoidal sp _ e f g) (namesSub_sigmoidal sp _ e' f' g')
      (disjMax_sigmoidal sp n1 n2 sz1 sz2 hp1 hp2 hs1 hs2)
  · intro s i s' i'
    exact disjoint_mono (namesSub_linear sp _ s i) (namesSub_linear sp _ s' i')
      (disjMax_linear sp n1 n2 sz1 sz2 hp1 hp2)
  · intro s i b s' i' b'
    exact disjoint_mono (namesSub_loglinear sp _ s i b) (namesSub_loglinear sp _ s' i' b')
      (disjMax_loglinear sp n1 n2 sz1 sz2 hp1 hp2)
  · intro e t e' t'
    exact disjoint_mono (namesSub_fixed sp _ e t) (namesSub_fixed sp _ e' t')
      (disjMax_fixed sp n1 n2 sz1 sz2 hp1 hp2)
  · intro c kel x hx
    have hx' := namesSub_eliminate sp c kel hx
    have e : namesOf (eliminate sp c (.num 0)).returned =
        [mkNm "eliminate_" sp.baseName c.name "",
         mkNm "eliminate_" sp.baseName c.name "_k"] := rfl
    rw [e] at hx'
    simp only [List.mem_cons, List.not_mem_nil, or_false] at hx'
    rcases hx' with rfl | rfl <;> exact mkNm_infix _ _ _ _
  · intro c v k x hx
    have hx' := namesSub_eliminate_mm sp c v k hx
    have e : namesOf (eliminate_mm sp c (.num 0) (.num 0)).returned =
        [mkNm "eliminate_mm_" sp.baseName c.name "", mkNm "Vmax_" sp.baseName c.name "",
         mkNm "Km_" sp.baseName c.name "", mkNm "_obs_expr_" sp.baseName c.name "",
         mkNm "k_expr_" sp.baseName c.name ""] := rfl
    rw [e] at hx'
    simp only [List.mem_cons, List.not_mem_nil, or_false] at hx'
    rcases hx' with rfl | rfl | rfl | rfl | rfl <;> exact mkNm_infix _ _ _ _
  · intro c cl x hx
    have hx' := namesSub_clearance sp c cl hx
    have e : namesOf (clearance sp c (.num 0)).returned =
        [mkNm "clearance_" sp.baseName c.name "", mkNm "k_CL_expr_" sp.baseName c.name "",
         mkNm "CL_" sp.baseName c.name ""] := rfl
    rw [e] at hx'
    simp only [List.mem_cons, List.not_mem_nil, or_false] at hx'
    rcases hx' with rfl | rfl | rfl <;> exact mkNm_infix _ _ _ _
  · intro c e f x hx
    have hx' := namesSub_emax sp c e f hx
    have e0 : namesOf (emax sp c (.num 0) (.num 0)).returned =
        [mkNm "_obs_emax_expr_" sp.baseName c.name "",
         mkNm "Emax_expr_" sp.baseName c.name "",
         mkNm "Emax_" sp.baseName c.name "", mkNm "EC50_" sp.baseName c.name ""] := rfl
    rw [e0] at hx'
    simp only [List.mem_cons, List.not_mem_nil, or_false] at hx'
    rcases hx' with rfl | rfl | rfl | rfl <;> exact mkNm_infix _ _ _ _
  · intro c e f g x hx
    have hx' := namesSub_sigmoidal sp c e f g hx
    have e0 : namesOf (sigmoidal_emax sp c (.num 0) (.num 0) (.num 0)).returned =
        [mkNm "_obs_emax_expr_" sp.baseName c.name "",
         mkNm "Emax_expr_" sp.baseName c.name "",
         mkNm "Emax_" sp.baseName c.name "", mkNm "EC50_" sp.baseName c.name "",
         mkNm "n_" sp.baseName c.name ""] := rfl
    rw [e0] at hx'
    simp only [List.mem_cons, List.not_mem_nil, or_false] at hx'
    rcases hx' with rfl | rfl | rfl | rfl | rfl <;> exact mkNm_infix _ _ _ _
  · intro c s i x hx
    have hx' := namesSub_linear sp c s i hx
    have e0 : namesOf (linear_effect sp c (.num 0) (.num 0)).returned =
        [mkNm "_obs_lineffect_expr_" sp.baseName c.name "",
         mkNm "LinearEffect_expr_" sp.baseName c.name "",
         mkNm "LinEffect_Slope_" sp.baseName c.name "",
         mkNm "LinEffect_Intercept_" sp.baseName c.name ""] := rfl
    rw [e0] at hx'
    simp only [List.mem_cons, List.not_mem_nil, or_false] at hx'
    rcases hx' with rfl | rfl | rfl | rfl <;> exact mkNm_infix _ _ _ _
  · intro c s i b x hx
    have hx' := namesSub_loglinear sp c s i b hx
    have e0 : namesOf (loglinear_effect sp c (.num 0) (.num 0) none).returned =
        [mkNm "_obs_loglinearffect_expr_" sp.baseName c.name "",
         mkNm "LogLinearEffect_expr_" sp.baseName c.name "",
         mkNm "LogLinEffect_Slope_" sp.baseName c.name "",
         mkNm "LogLinEffect_Intercept_" sp.baseName c.name ""] := rfl
    rw [e0] at hx'
    simp only [List.mem_cons, List.not_mem_nil, or_false] at hx'
    rcases hx' with rfl | rfl | rfl | rfl <;> exact mkNm_infix _ _ _ _
  · intro c e t x hx
    have hx' := namesSub_fixed sp c e t hx
    have e0 : namesOf (fixed_effect sp c (.num 0) (.num 0)).returned =
        [mkNm "_obs_fixedeffect_expr_" sp.baseName c.name "",
         mkNm "FixedEffect_expr_" sp.baseName c.name "",
         mkNm "Efixed_" sp.baseName c.name "",
         mkNm "Cthreshold_" sp.baseName c.name ""] := rfl
    rw [e0] at hx'
    simp only [List.mem_cons, List.not_mem_nil, or_false] at hx'
    rcases hx' with rfl | rfl | rfl | rfl <;> exact mkNm_infix _ _ _ _

/-- Witness for the amended claim C4: CENTRAL and PERIPHERAL satisfy the
side conditions and a concrete pair of eliminate calls is disjoint. -/
theorem claim_C4_witness :
    (¬ ("CENTRAL" : String).data <+: ("PERIPHERAL" : String).data) ∧
    (¬ ("PERIPHERAL" : String).data <+: ("CENTRAL" : String).data) ∧
    (¬ ("CENTRAL" : String).data <:+ ("PERIPHERAL" : String).data) ∧
    (¬ ("PERIPHERAL" : String).data <:+ ("CENTRAL" : String).data) ∧
    List.Disjoint
      (namesOf (eliminate (.mono ⟨"Drug"⟩) ⟨"CENTRAL", ⟨"V1", 1⟩⟩ (.num 1)).returned)
      (namesOf (eliminate (.mono ⟨"Drug"⟩) ⟨"PERIPHERAL", ⟨"V2", 1⟩⟩ (.num 1)).returned) :=
  ⟨by decide, by decide, by decide, by decide,
   (claim_C4_amended (.mono ⟨"Drug"⟩) "CENTRAL" "PERIPHERAL" ⟨"V1", 1⟩ ⟨"V2", 1⟩
      (by decide) (by decide) (by decide) (by decide)).1 (.num 1) (.num 1)⟩

/-- Witness for claim C3: at a concrete input the rule rate list is not
a bare-parameter list. -/
theorem claim_C3_witness :
    (rulesOf (eliminate_mm (.mono ⟨"Drug"⟩) ⟨"CENTRAL", ⟨"V_CENTRAL", 1⟩⟩
        (.num 1) (.num 15)).created).map RuleC.rates ≠
      [[RateLaw.par ⟨"k", 0⟩]] :=
  (claim_C3_eliminate_mm (.mono ⟨"Drug"⟩) ⟨"CENTRAL", ⟨"V_CENTRAL", 1⟩⟩ 1 15).2.2.2
    ⟨"k", 0⟩

/-- Witness for claim C9: a concrete Initial is not in the returned set
of a concrete dose_bolus call. -/
theorem claim_C9_witness :
    Component.init ⟨⟨⟨"Drug"⟩, ⟨"CENTRAL", ⟨"V_CENTRAL", 1⟩⟩⟩,
        ⟨"expr_Drug_CENTRAL_0", .lit 0⟩⟩ ∉
      (dose_bolus (.mono ⟨"Drug"⟩) ⟨"CENTRAL", ⟨"V_CENTRAL", 1⟩⟩ (.num 100)).returned :=
  (claim_C9_dose_bolus (.mono ⟨"Drug"⟩) ⟨"CENTRAL", ⟨"V_CENTRAL", 1⟩⟩ (.num 100)).2.2
    ⟨⟨⟨"Drug"⟩, ⟨"CENTRAL", ⟨"V_CENTRAL", 1⟩⟩⟩, ⟨"expr_Drug_CENTRAL_0", .lit 0⟩⟩

end PKPD
